import Mathlib

/-!
# Verification of the `pdfsigner-rs` incremental-signature splicer

Shallow embedding of the PDF signing core (`src/utils.rs`, `src/pdfsigner.rs`,
`src/error.rs`) in Lean 4, together with theorems settling the specification
claims about it.

Conventions of the embedding:

* Byte buffers (`Vec<u8>`, `&[u8]`) are modelled as `List Nat`, one entry per
  byte value.
* `String::from_utf8_lossy` is modelled as the identity on bytes.  On ASCII
  inputs (every input exercised here) this is exactly the source behaviour;
  the source's probe functions treat the PDF as latin text throughout.
* Fallible Rust code returning `Result` is modelled with `Except` / a dedicated
  `Outcome` type; a Rust panic (arithmetic underflow, out-of-bounds slice) is
  modelled by the distinguished value `Outcome.panicked` (or `none` for the
  one helper that can panic).
* External collaborators (the OpenSSL PKCS#7 signer, the certificate CN, the
  wall clock) are parameters of the embedded signing function: `signer` is the
  detached-CMS adapter, `signerName` is `subject_cn().unwrap_or("Unknown")`,
  and `nowStr` is `chrono::Utc::now().format("%Y%m%d%H%M%S")`.
-/


/-- Byte list of an ASCII string literal. -/
def strBytes (s : String) : List Nat := s.data.map Char.toNat

/-- ASCII digit test, as in the source's `b'0' ..= b'9'` range checks. -/
def isDigitByte (b : Nat) : Bool := 48 ≤ b && b ≤ 57

/-- ASCII whitespace, the bytes recognised by Rust's `char::is_whitespace` /
`str::trim` / `split_whitespace` on ASCII text. -/
def isWsByte (b : Nat) : Bool := b == 9 || b == 10 || b == 11 || b == 12 || b == 13 || b == 32

/-- `&l[a..b]`: the slice of `l` from `a` (inclusive) to `b` (exclusive). -/
def listSlice (l : List Nat) (a b : Nat) : List Nat := (l.take b).drop a

/-- `haystack.windows(needle.len()).position(|w| w == needle)`, position counter
starting at `i`.  For a non-empty needle this agrees with the Rust iterator:
a match is reported at the first suffix of which `needle` is a prefix. -/
def findSubseqAux (needle : List Nat) : List Nat → Nat → Option Nat
  | [], i => if needle.isEmpty then some i else none
  | h :: t, i =>
    if needle.isPrefixOf (h :: t) then some i else findSubseqAux needle t (i + 1)

/-- First occurrence of `needle` in `haystack` (byte offset). -/
def findSubseq (needle haystack : List Nat) : Option Nat := findSubseqAux needle haystack 0

/-- `haystack.windows(..).rposition(..)`: offset of the last occurrence. -/
def rfindSubseqAux (needle : List Nat) : List Nat → Nat → Option Nat → Option Nat
  | [], _, best => best
  | h :: t, i, best =>
    rfindSubseqAux needle t (i + 1) (if needle.isPrefixOf (h :: t) then some i else best)

/-- Last occurrence of `needle` in `haystack` (byte offset). -/
def rfindSubseq (needle haystack : List Nat) : Option Nat := rfindSubseqAux needle haystack 0 none

/-- `str::contains` / `windows(..).any(..)`. -/
def containsSubseq (needle haystack : List Nat) : Bool := (findSubseq needle haystack).isSome

/-- Rust `str::trim` restricted to ASCII text. -/
def trimBytes (l : List Nat) : List Nat :=
  ((l.dropWhile isWsByte).reverse.dropWhile isWsByte).reverse

/-- Rust `str::parse::<uN>` on a token: an optional leading `+`, then at least
one ASCII digit, and the value must fit the integer type (`bound`). -/
def parseNatLe (bound : Nat) (tok : List Nat) : Option Nat :=
  let digits := match tok with
    | 43 :: rest => rest
    | _ => tok
  if digits.isEmpty then none
  else if digits.all isDigitByte then
    let v := digits.foldl (fun acc d => acc * 10 + (d - 48)) 0
    if v ≤ bound then some v else none
  else none

def u32Max : Nat := 4294967295

def usizeMax : Nat := 18446744073709551615

/-- Helper for `linesOf`: the accumulated line is kept reversed; Rust's
`str::lines` strips one trailing `\r` from each line. -/
def finishLine (accRev : List Nat) : List Nat :=
  match accRev with
  | 13 :: t => t.reverse
  | l => l.reverse

/-- Worker for `linesOf`. -/
def linesAux : List Nat → List Nat → List (List Nat)
  | [], accRev => if accRev.isEmpty then [] else [finishLine accRev]
  | 10 :: t, accRev => finishLine accRev :: linesAux t []
  | c :: t, accRev => linesAux t (c :: accRev)

/-- Rust `str::lines`: split at `\n`, strip one trailing `\r` per line, no
empty trailing line. -/
def linesOf (l : List Nat) : List (List Nat) := linesAux l []

/-- Worker for `tokensOf`. -/
def tokensAux : List Nat → List Nat → List (List Nat)
  | [], cur => if cur.isEmpty then [] else [cur.reverse]
  | c :: t, cur =>
    if isWsByte c then
      if cur.isEmpty then tokensAux t [] else cur.reverse :: tokensAux t []
    else tokensAux t (c :: cur)

/-- Rust `str::split_whitespace` on ASCII text. -/
def tokensOf (l : List Nat) : List (List Nat) := tokensAux l []

/-- Decimal digit bytes of `n`, most significant first (Rust `format!("{}", n)`).
Structured with explicit fuel so that it is structurally recursive; `n + 1`
units of fuel always suffice since the argument shrinks by a factor of 10. -/
def decimalBytesAux : Nat → Nat → List Nat → List Nat
  | 0, _, acc => acc
  | fuel + 1, n, acc =>
    if n < 10 then (48 + n) :: acc
    else decimalBytesAux fuel (n / 10) ((48 + n % 10) :: acc)

/-- Rust `format!("{}", n)` for an unsigned integer. -/
def decimalBytes (n : Nat) : List Nat := decimalBytesAux (n + 1) n []

/-- Rust `format!("{:010}", n)`: zero-pad on the left to at least 10 digits. -/
def padZeros10 (n : Nat) : List Nat :=
  List.replicate (10 - (decimalBytes n).length) 48 ++ decimalBytes n

/-! ## `src/error.rs` -/


/-- `PdfSignError` from `src/error.rs` (payloads are the formatted messages;
the `IoError` payload is the rendered error text). -/
inductive PdfSignError where
  | ioError (msg : String)
  | invalidCertificate
  | invalidPdf (msg : String)
  | signingError (msg : String)
  | icpBrasilValidationError (msg : String)
  | timestampError (msg : String)
  | networkError (msg : String)
  | decodingError (msg : String)
  | rsaError (msg : String)
  | awsS3Error (msg : String)
deriving DecidableEq

/-- The constructor ("kind") of a `PdfSignError`, payload-free. -/
inductive ErrKind where
  | ioError | invalidCertificate | invalidPdf | signingError
  | icpBrasilValidationError | timestampError | networkError
  | decodingError | rsaError | awsS3Error
deriving DecidableEq

def PdfSignError.kind : PdfSignError → ErrKind
  | .ioError _ => .ioError
  | .invalidCertificate => .invalidCertificate
  | .invalidPdf _ => .invalidPdf
  | .signingError _ => .signingError
  | .icpBrasilValidationError _ => .icpBrasilValidationError
  | .timestampError _ => .timestampError
  | .networkError _ => .networkError
  | .decodingError _ => .decodingError
  | .rsaError _ => .rsaError
  | .awsS3Error _ => .awsS3Error

/-! ## `src/utils.rs` -/


/-- `remove_trailing_newline`: the two `while last == … { pop }` loops (first
all trailing `\n`, then all trailing `\r`), written on the reversed list. -/
def remove_trailing_newline (pdf : List Nat) : List Nat :=
  (((pdf.reverse.dropWhile (· == 10)).dropWhile (· == 13))).reverse

/-- `get_next_object_number`: for every line whose first whitespace token
parses as `u32` and which contains `"0 obj"`, take the maximum; then add 1.
The source's running `max_obj` mutable is the fold accumulator. -/
def get_next_object_number (pdf : List Nat) : Nat :=
  ((linesOf pdf).foldl (fun maxObj line =>
    match (tokensOf line).head? with
    | none => maxObj
    | some tok =>
      match parseNatLe u32Max tok with
      | none => maxObj
      | some num =>
        if containsSubseq (strBytes "0 obj") line then Nat.max maxObj num else maxObj) 0) + 1

/-- `PdfCatalogInfo` from `src/utils.rs`. -/
structure PdfCatalogInfo where
  catalog_obj : Nat
  pages_ref : Nat
  has_acroform : Bool
deriving DecidableEq

/-- `find_catalog_from_trailer`: last `"trailer"`, then `/Root`, then the first
whitespace token after it that parses as `usize`. -/
def find_catalog_from_trailer (pdf : List Nat) : Option Nat :=
  match rfindSubseq (strBytes "trailer") pdf with
  | none => none
  | some trailerPos =>
    let trailerSection := pdf.drop trailerPos
    match findSubseq (strBytes "/Root") trailerSection with
    | none => none
    | some rootPos =>
      (tokensOf (trailerSection.drop (rootPos + 5))).findSome? (parseNatLe usizeMax)

/-- `marker_pos.saturating_sub(2000)`, the start of the 2000-byte backward
search window.  (The guard makes the saturating subtraction explicit; on
naturals `if i ≤ 2000 then 0 else i - 2000` equals `i - 2000`.) -/
def windowStart (i : Nat) : Nat := if i ≤ 2000 then 0 else i - 2000

/-- The backward scan shared by the pattern-based locators: the last
`" 0 obj"` in `pdf[searchStart..markerPos]`, then the ASCII digits
immediately before it, trimmed and parsed as `usize`. -/
def backscanObjNumber (pdf : List Nat) (searchStart markerPos : Nat) : Option Nat :=
  match rfindSubseq (strBytes " 0 obj") (listSlice pdf searchStart markerPos) with
  | none => none
  | some objPos =>
    let actualPos := searchStart + objPos
    let numBytes := ((pdf.take actualPos).reverse.takeWhile isDigitByte).reverse
    parseNatLe usizeMax (trimBytes numBytes)

/-- One iteration of the marker loops in `find_catalog_by_pattern` /
`find_pages_object`: first occurrence of `marker`, backward scan window of
2000 bytes (`saturating_sub`). -/
def findByMarkerOnce (pdf marker : List Nat) : Option Nat :=
  match findSubseq marker pdf with
  | none => none
  | some markerStart => backscanObjNumber pdf (windowStart markerStart) markerStart

/-- `find_catalog_by_pattern`: try `"/Type /Catalog"` then `"/Type/Catalog"`. -/
def find_catalog_by_pattern (pdf : List Nat) : Option Nat :=
  match findByMarkerOnce pdf (strBytes "/Type /Catalog") with
  | some n => some n
  | none => findByMarkerOnce pdf (strBytes "/Type/Catalog")

/-- `"{n} 0 obj"`. -/
def objHeaderBytes (n : Nat) : List Nat := decimalBytes n ++ strBytes " 0 obj"

/-- `find_pages_ref_in_catalog`: open the catalog object's definition and read
the first parseable token after `/Pages`. -/
def find_pages_ref_in_catalog (pdf : List Nat) (catalogObj : Nat) : Option Nat :=
  match findSubseq (objHeaderBytes catalogObj) pdf with
  | none => none
  | some catalogStart =>
    match findSubseq (strBytes "endobj") (pdf.drop catalogStart) with
    | none => none
    | some rel =>
      let catalogSection := listSlice pdf catalogStart (rel + catalogStart)
      match findSubseq (strBytes "/Pages") catalogSection with
      | none => none
      | some pagesPos =>
        (tokensOf (catalogSection.drop (pagesPos + 6))).findSome? (parseNatLe usizeMax)

/-- `check_catalog_has_acroform`. -/
def check_catalog_has_acroform (pdf : List Nat) (catalogObj : Nat) : Bool :=
  match findSubseq (objHeaderBytes catalogObj) pdf with
  | none => false
  | some catalogStart =>
    match findSubseq (strBytes "endobj") (pdf.drop catalogStart) with
    | none => false
    | some rel =>
      containsSubseq (strBytes "/AcroForm") (listSlice pdf catalogStart (catalogStart + rel))

/-- `find_pages_object`: try `"/Type /Pages"` then `"/Type/Pages"`. -/
def find_pages_object (pdf : List Nat) : Option Nat :=
  match findByMarkerOnce pdf (strBytes "/Type /Pages") with
  | some n => some n
  | none => findByMarkerOnce pdf (strBytes "/Type/Pages")

/-- `validate_pages_object`. -/
def validate_pages_object (pdf : List Nat) (pagesObj : Nat) : Option Nat :=
  if containsSubseq (objHeaderBytes pagesObj) pdf then some pagesObj
  else find_pages_object pdf

/-- `extract_catalog_info`.  The source returns `Ok(..)` unconditionally (every
failure has an `unwrap_or` default), so the embedding is a total function. -/
def extract_catalog_info (pdf : List Nat) : PdfCatalogInfo :=
  let catalogObj := (find_catalog_from_trailer pdf).getD
    ((find_catalog_by_pattern pdf).getD 1)
  let pagesRef0 := (find_pages_ref_in_catalog pdf catalogObj).getD
    ((find_pages_object pdf).getD 1)
  let pagesRef := (validate_pages_object pdf pagesRef0).getD pagesRef0
  { catalog_obj := catalogObj, pages_ref := pagesRef,
    has_acroform := check_catalog_has_acroform pdf catalogObj }

/-- The scanning loop of `find_first_page_by_pattern` for one marker.  The
source advances `pos` to the next occurrence of the marker with `position`;
scanning every suffix in order visits exactly the same occurrences in the
same order, so the two formulations agree.  A match whose following byte is
`'s'` (`/Type /Pages`) is skipped; for any other match the backward object
scan is attempted, and scanning continues when it fails. -/
def findPageScan (pdf marker : List Nat) : List Nat → Nat → Option Nat
  | [], _ => none
  | h :: t, i =>
    if marker.isPrefixOf (h :: t) then
      if pdf[i + marker.length]? == some 115 then
        findPageScan pdf marker t (i + 1)
      else
        match backscanObjNumber pdf (windowStart i) i with
        | some objNum => some objNum
        | none => findPageScan pdf marker t (i + 1)
    else findPageScan pdf marker t (i + 1)

/-- `find_first_page_by_pattern`: try `"/Type /Page"` then `"/Type/Page"`,
excluding `/Type /Pages` matches. -/
def find_first_page_by_pattern (pdf : List Nat) : Option Nat :=
  match findPageScan pdf (strBytes "/Type /Page") pdf 0 with
  | some n => some n
  | none => findPageScan pdf (strBytes "/Type/Page") pdf 0

/-- `extract_first_page_info`. -/
def extract_first_page_info (pdf : List Nat) : Except PdfSignError Nat :=
  match find_first_page_by_pattern pdf with
  | some n => Except.ok n
  | none => Except.error (PdfSignError.invalidPdf "Não foi possível encontrar a primeira página")

/-! ## `src/pdfsigner.rs` -/


/-- `sig_size` (line 161): 16000 hex characters reserved for the signature. -/
def sigSize : Nat := 16000

/-- The `Contents` placeholder `"<" + "0".repeat(16000) + ">"`. -/
def sigPlaceholder : List Nat := [60] ++ List.replicate sigSize 48 ++ [62]

/-- The `ByteRange` placeholder searched for at line 304 (44 characters plus
17 trailing spaces, 61 bytes in total). -/
def byteRangePlaceholder : List Nat :=
  strBytes "/ByteRange [0000000 0000000 0000000 0000000]                 "

/-- The `/M` date placeholder (17 bytes). -/
def datePlaceholderBytes : List Nat := strBytes "D:00000000000000Z"

/-- The signature dictionary object (the `format!` at line 182), split at its
interpolation points. -/
def sigDictBytes (nextObj : Nat) (reason contactInfo signerName location : List Nat) : List Nat :=
  decimalBytes nextObj ++
  strBytes " 0 obj\n<<\n/Type /Sig\n/Filter /Adobe.PPKLite\n/SubFilter /adbe.pkcs7.detached\n/ByteRange [0000000 0000000 0000000 0000000]                 \n/Contents " ++
  sigPlaceholder ++
  strBytes "\n/Reason (" ++ reason ++
  strBytes ")\n/M (" ++ datePlaceholderBytes ++
  strBytes ")\n/ContactInfo (" ++ contactInfo ++
  strBytes ")\n/Name (" ++ signerName ++
  strBytes ")\n/Location (" ++ location ++
  strBytes ")\n/Prop_Build <<\n/Filter <<\n/Name /Adobe.PPKLite\n>>\n>>\n>>\nendobj\n"

/-- The AcroForm object (line 226). -/
def acroformBytes (nextObj : Nat) : List Nat :=
  decimalBytes (nextObj + 1) ++
  strBytes " 0 obj\n<<\n/Type /AcroForm\n/SigFlags 3\n/Fields [" ++
  decimalBytes (nextObj + 2) ++ strBytes " 0 R]\n>>\nendobj\n"

/-- The signature widget object (line 238). -/
def sigFieldBytes (nextObj firstPageObj : Nat) : List Nat :=
  decimalBytes (nextObj + 2) ++
  strBytes " 0 obj\n<<\n/Type /Annot\n/Subtype /Widget\n/FT /Sig\n/Rect [0 0 0 0]\n/V " ++
  decimalBytes nextObj ++
  strBytes " 0 R\n/T (Signature1)\n/F 4\n/P " ++
  decimalBytes firstPageObj ++ strBytes " 0 R\n>>\nendobj\n"

/-- The incremental xref section (line 279): object 0 subsection first, then
the catalog subsection, then the subsection for the three new objects. -/
def xrefBytes (catalogObj newCatalogPos nextObj sigDictPos acroformPos sigFieldPos : Nat) :
    List Nat :=
  strBytes "xref\n0 1\n0000000000 65535 f \n" ++
  decimalBytes catalogObj ++ strBytes " 1\n" ++
  padZeros10 newCatalogPos ++ strBytes " 00000 n \n" ++
  decimalBytes nextObj ++ strBytes " 3\n" ++
  padZeros10 sigDictPos ++ strBytes " 00000 n \n" ++
  padZeros10 acroformPos ++ strBytes " 00000 n \n" ++
  padZeros10 sigFieldPos ++ strBytes " 00000 n \n"

/-- The trailer (line 292). -/
def trailerBytes (nextObj prevXref catalogObj xrefStart : Nat) : List Nat :=
  strBytes "trailer\n<<\n/Size " ++ decimalBytes (nextObj + 3) ++
  strBytes "\n/Prev " ++ decimalBytes prevXref ++
  strBytes "\n/Root " ++ decimalBytes catalogObj ++
  strBytes " 0 R\n>>\nstartxref\n" ++ decimalBytes xrefStart ++ strBytes "\n%%EOF\n"

/-- `build_updated_catalog`'s basic fallback catalog. -/
def basicCatalog (catalogObj pagesRef acroformRef : Nat) : List Nat :=
  decimalBytes catalogObj ++ strBytes " 0 obj\n<<\n/Type /Catalog\n/Pages " ++
  decimalBytes pagesRef ++ strBytes " 0 R\n/AcroForm " ++
  decimalBytes acroformRef ++ strBytes " 0 R\n>>\nendobj\n"

/-- The extras filter of `build_updated_catalog`: keep every trimmed non-empty
dictionary line not starting with `/Type`, `/Pages` or `/AcroForm`. -/
def catalogExtraLine (line : List Nat) : Option (List Nat) :=
  let trimmed := trimBytes line
  if !(strBytes "/Type").isPrefixOf trimmed && !(strBytes "/Pages").isPrefixOf trimmed &&
      !(strBytes "/AcroForm").isPrefixOf trimmed && !trimmed.isEmpty then
    some trimmed
  else none

/-- `build_updated_catalog`.  `none` models the Rust panic when the string
slice `catalog_str[dict_start + 2..dict_end]` has inverted bounds (the last
`">>"` occurring before the first `"<<"`); every other fall-through path
produces the basic catalog, as in the source. -/
def build_updated_catalog (catalogObj pagesRef acroformRef : Nat) (pdf : List Nat) :
    Option (List Nat) :=
  match findSubseq (objHeaderBytes catalogObj) pdf with
  | none => some (basicCatalog catalogObj pagesRef acroformRef)
  | some catalogStart =>
    match findSubseq (strBytes "endobj") (pdf.drop catalogStart) with
    | none => some (basicCatalog catalogObj pagesRef acroformRef)
    | some rel =>
      let catalogSection := listSlice pdf catalogStart (catalogStart + rel)
      match findSubseq (strBytes "<<") catalogSection with
      | none => some (basicCatalog catalogObj pagesRef acroformRef)
      | some dictStart =>
        match rfindSubseq (strBytes ">>") catalogSection with
        | none => some (basicCatalog catalogObj pagesRef acroformRef)
        | some dictEnd =>
          if dictStart + 2 ≤ dictEnd then
            let dictContent := listSlice catalogSection (dictStart + 2) dictEnd
            let extraFields := (linesOf dictContent).filterMap catalogExtraLine
            some (decimalBytes catalogObj ++ strBytes " 0 obj\n<<\n/Type /Catalog\n/Pages " ++
              decimalBytes pagesRef ++ strBytes " 0 R\n/AcroForm " ++
              decimalBytes acroformRef ++ strBytes " 0 R\n" ++
              (extraFields.map (fun f => f ++ [10])).flatten ++ strBytes ">>\nendobj\n")
          else none

/-- The `prev_xref` computation (lines 258-271): last `"startxref\n"`, then the
text up to the next `"\n"`, trimmed and parsed, with `unwrap_or(0)`
defaults everywhere. -/
def computePrevXref (pdf : List Nat) : Nat :=
  match rfindSubseq (strBytes "startxref\n") pdf with
  | none => 0
  | some pos =>
    let start := pos + (strBytes "startxref\n").length
    match findSubseq [10] (pdf.drop start) with
    | none => 0
    | some e => (parseNatLe usizeMax (trimBytes (listSlice pdf start (start + e)))).getD 0

/-- `hex::encode`: lowercase hex digit of a nibble. -/
def hexDigitByte (n : Nat) : Nat := if n < 10 then 48 + n else 87 + n

/-- `hex::encode`: two lowercase hex digits per byte. -/
def hexEncode (l : List Nat) : List Nat :=
  (l.map (fun b => [hexDigitByte (b / 16), hexDigitByte (b % 16)])).flatten

/-- `output[pos..pos + v.len()].copy_from_slice(v)`.  (At every use site the
write is in bounds, so the total function agrees with the source.) -/
def writeAt (buf : List Nat) (pos : Nat) (v : List Nat) : List Nat :=
  buf.take pos ++ v ++ buf.drop (pos + v.length)

/-- Result of a signing call: success, a returned `PdfSignError`, or a Rust
panic. -/
inductive Outcome (α : Type) where
  | ok (val : α)
  | err (e : PdfSignError)
  | panicked
deriving DecidableEq

/-- The kind of the error, when the outcome is an error. -/
def outcomeErrKind {α : Type} : Outcome α → Option ErrKind
  | .err e => some e.kind
  | _ => none

/-- `"/ByteRange [{} {} {} {}]"` (line 347). -/
def byteRangeRaw (v0 v1 v2 v3 : Nat) : List Nat :=
  strBytes "/ByteRange [" ++ decimalBytes v0 ++ [32] ++ decimalBytes v1 ++ [32] ++
  decimalBytes v2 ++ [32] ++ decimalBytes v3 ++ [93]

/-- Lines 346-366 of `sign_pdf_bytes`: format the `ByteRange` values, pad with
spaces to the placeholder length and overwrite the placeholder in place.
When the raw string is longer than the placeholder, the source's
`byterange_placeholder_len - byte_range_str_raw.len()` underflows: a panic in
debug builds, and a wrapped huge count making `" ".repeat(..)` panic with a
capacity overflow in release builds — modelled as `Outcome.panicked`.  The
explicit length check below (the source's `InvalidPdf` guard) is therefore
unreachable in the mismatch case. -/
def patchByteRangeStep (output : List Nat) (rangePos v0 v1 v2 v3 : Nat) : Outcome (List Nat) :=
  let raw := byteRangeRaw v0 v1 v2 v3
  if byteRangePlaceholder.length < raw.length then Outcome.panicked
  else
    let padded := raw ++ List.replicate (byteRangePlaceholder.length - raw.length) 32
    if padded.length ≠ byteRangePlaceholder.length then
      Outcome.err (PdfSignError.invalidPdf ("ByteRange com padding (" ++ toString padded.length ++
        ") != placeholder (" ++ toString byteRangePlaceholder.length ++ ")"))
    else Outcome.ok (writeAt output rangePos padded)

/-- Lines 411-441 of `sign_pdf_bytes`: hex-encode the CMS, reject it when it
does not fit the 16000-character slot (the source returns
`PdfSignError::InvalidPdf` here), zero-pad, wrap in angle brackets and
overwrite the `Contents` placeholder in place. -/
def injectSignatureStep (buf : List Nat) (placeholderPos placeholderLen : Nat)
    (finalCms : List Nat) : Outcome (List Nat) :=
  let sigHex := hexEncode finalCms
  if sigSize < sigHex.length then
    Outcome.err (PdfSignError.invalidPdf ("Assinatura muito grande: " ++ toString sigHex.length ++
      " bytes, mas placeholder tem apenas " ++ toString sigSize ++ " bytes"))
  else
    let finalSigHex := [60] ++ (sigHex ++ List.replicate (sigSize - sigHex.length) 48) ++ [62]
    if finalSigHex.length ≠ placeholderLen then
      Outcome.err (PdfSignError.invalidPdf ("Tamanho da assinatura final (" ++
        toString finalSigHex.length ++ ") diferente do placeholder (" ++
        toString placeholderLen ++ ")"))
    else Outcome.ok (writeAt buf placeholderPos finalSigHex)

/-- `SignatureConfig` (reason / location / contact_info, as bytes). -/
structure SignatureConfig where
  reason : List Nat
  location : List Nat
  contact_info : List Nat

/-- The buffer and offsets produced by the assembly phase of
`sign_pdf_bytes` (lines 207-299): the full pre-patch buffer plus every
recorded running offset. -/
structure LayoutData where
  output : List Nat
  sigDictPos : Nat
  acroformPos : Nat
  sigFieldPos : Nat
  newCatalogPos : Nat
  xrefStart : Nat
  xref : List Nat
  prevXref : Nat

/-- Lines 207-299 of `sign_pdf_bytes`: copy the stripped input, append one
`\n`, the four objects, the incremental xref and the trailer, recording each
starting offset as the running buffer length, exactly as the source does. -/
def assembleOutput (signerName : List Nat) (config : SignatureConfig) (p : List Nat)
    (nextObj firstPageObj catalogObj : Nat) (newCatalog : List Nat) : LayoutData :=
  let sigDict := sigDictBytes nextObj config.reason config.contact_info signerName config.location
  let output0 := p ++ [10]
  let sigDictPos := output0.length
  let output1 := output0 ++ sigDict
  let acroformPos := output1.length
  let output2 := output1 ++ acroformBytes nextObj
  let sigFieldPos := output2.length
  let output3 := output2 ++ sigFieldBytes nextObj firstPageObj
  let newCatalogPos := output3.length
  let output4 := output3 ++ newCatalog
  let prevXref := computePrevXref p
  let xrefStart := output4.length
  let xref := xrefBytes catalogObj newCatalogPos nextObj sigDictPos acroformPos sigFieldPos
  let output5 := output4 ++ xref
  let output := output5 ++ trailerBytes nextObj prevXref catalogObj xrefStart
  { output := output
    sigDictPos := sigDictPos
    acroformPos := acroformPos
    sigFieldPos := sigFieldPos
    newCatalogPos := newCatalogPos
    xrefStart := xrefStart
    xref := xref
    prevXref := prevXref }

/-- All data produced by a successful `sign_pdf_bytes` call, with the
intermediate coordinates recorded so that theorems can refer to them:
`out` is the returned buffer, `out0` the assembled buffer before any patch,
`mid` the buffer after the `ByteRange` and `/M` patches, `toSign` the byte
slab handed to the detached signer, `a`/`L` the `Contents` placeholder
offset and length, `br0`-`br3` the computed `ByteRange` values. -/
structure SignOutput where
  out : List Nat
  out0 : List Nat
  mid : List Nat
  toSign : List Nat
  rangePos : Nat
  byterangeEnd : Nat
  contentsTagPos : Nat
  a : Nat
  L : Nat
  datePos : Nat
  br0 : Nat
  br1 : Nat
  br2 : Nat
  br3 : Nat
  sigDictPos : Nat
  acroformPos : Nat
  sigFieldPos : Nat
  newCatalogPos : Nat
  xrefStart : Nat
  xref : List Nat
  catalogObj : Nat
  pagesRef : Nat
  firstPageObj : Nat
  nextObj : Nat
  prevXref : Nat

/-- `PdfSigner::sign_pdf_bytes`.  `signer` is the detached-CMS adapter
(`create_pkcs7_detached`), `signerName` is `subject_cn().unwrap_or("Unknown")`
and `nowStr` the 14-character UTC timestamp; the initial
`create_pkcs7_signature` call always succeeds (it returns a constant 256-byte
placeholder) and its result is discarded, and the first `to_sign` build is
cleared and recomputed after the `/M` patch, so only the recomputation is
modelled. -/
def sign_pdf_bytes (signer : List Nat → Except PdfSignError (List Nat))
    (signerName nowStr : List Nat) (config : SignatureConfig) (pdfData : List Nat) :
    Outcome SignOutput :=
  let pdf := remove_trailing_newline pdfData
  let nextObj := get_next_object_number pdf
  let catalogInfo := extract_catalog_info pdf
  match extract_first_page_info pdf with
  | .error e => Outcome.err e
  | .ok firstPageObj =>
    let catalogObj := catalogInfo.catalog_obj
    let pagesRef := catalogInfo.pages_ref
    match build_updated_catalog catalogObj pagesRef (nextObj + 1) pdf with
    | none => Outcome.panicked
    | some newCatalog =>
      let ly := assembleOutput signerName config pdf nextObj firstPageObj catalogObj newCatalog
      let output := ly.output
      match findSubseq byteRangePlaceholder output with
      | none => Outcome.err (PdfSignError.invalidPdf "ByteRange não encontrado")
      | some rangePos =>
        let byterangeEnd := rangePos + byteRangePlaceholder.length
        match findSubseq (strBytes "/Contents ") (output.drop byterangeEnd) with
        | none => Outcome.err (PdfSignError.invalidPdf "/Contents não encontrado após ByteRange")
        | some c0 =>
          let contentsTagPos := c0 + byterangeEnd
          match findSubseq [60] (output.drop contentsTagPos) with
          | none => Outcome.err (PdfSignError.invalidPdf "< não encontrado após /Contents")
          | some d0 =>
            let placeholderPos := d0 + contentsTagPos
            match findSubseq [62] (output.drop placeholderPos) with
            | none => Outcome.err (PdfSignError.invalidPdf "> não encontrado após <")
            | some e0 =>
              let placeholderEnd := e0 + placeholderPos
              let L := placeholderEnd + 1 - placeholderPos
              let br1 := placeholderPos
              let br2 := placeholderPos + L
              let br3 := output.length - (placeholderPos + L)
              match patchByteRangeStep output rangePos 0 br1 br2 br3 with
              | .panicked => Outcome.panicked
              | .err e => Outcome.err e
              | .ok out1 =>
                let dateStr := strBytes "D:" ++ nowStr ++ strBytes "Z"
                match findSubseq datePlaceholderBytes out1 with
                | none => Outcome.err (PdfSignError.invalidPdf "Placeholder de data não encontrado")
                | some datePos =>
                  if dateStr.length ≠ datePlaceholderBytes.length then
                    Outcome.err (PdfSignError.invalidPdf ("Data tem tamanho errado: " ++
                      toString dateStr.length ++ " vs " ++ toString datePlaceholderBytes.length))
                  else
                    let mid := writeAt out1 datePos dateStr
                    let toSign := listSlice mid 0 br1 ++ listSlice mid br2 (br2 + br3)
                    match signer toSign with
                    | .error e => Outcome.err e
                    | .ok finalCms =>
                      match injectSignatureStep mid placeholderPos L finalCms with
                      | .panicked => Outcome.panicked
                      | .err e => Outcome.err e
                      | .ok out =>
                        Outcome.ok
                          { out := out
                            out0 := output
                            mid := mid
                            toSign := toSign
                            rangePos := rangePos
                            byterangeEnd := byterangeEnd
                            contentsTagPos := contentsTagPos
                            a := placeholderPos
                            L := L
                            datePos := datePos
                            br0 := 0
                            br1 := br1
                            br2 := br2
                            br3 := br3
                            sigDictPos := ly.sigDictPos
                            acroformPos := ly.acroformPos
                            sigFieldPos := ly.sigFieldPos
                            newCatalogPos := ly.newCatalogPos
                            xrefStart := ly.xrefStart
                            xref := ly.xref
                            catalogObj := catalogObj
                            pagesRef := pagesRef
                            firstPageObj := firstPageObj
                            nextObj := nextObj
                            prevXref := ly.prevXref }

/-- Bounded no-occurrence checker: `noOccurIn needle l K = true` certifies that
`needle` occurs at none of the positions `0, …, K-1` of `l`. -/
def noOccurIn (needle : List Nat) : List Nat → Nat → Bool
  | _, 0 => true
  | [], _ + 1 => true
  | h :: t, k + 1 => !(needle.isPrefixOf (h :: t)) && noOccurIn needle t k

/-- "On every successful signing call, `P` holds of the result." -/
def OnOk (o : Outcome SignOutput) (P : SignOutput → Prop) : Prop :=
  ∀ r, o = Outcome.ok r → P r

/-- "The signing call succeeds and `P` holds of the result." -/
def OkAnd (o : Outcome SignOutput) (P : SignOutput → Prop) : Prop :=
  ∃ r, o = Outcome.ok r ∧ P r

/-! ## The page-marker checker for claim C8 -/


/-- Worker for `pageMarkersFollowedByS`: at every position of `pdf` where
`needle` occurs, the byte just past the occurrence exists and is `'s'`. -/
def followedBySAux (pdf needle : List Nat) : List Nat → Nat → Bool
  | [], _ => true
  | h :: t, i =>
    (if needle.isPrefixOf (h :: t) then pdf[i + needle.length]? == some 115 else true)
      && followedBySAux pdf needle t (i + 1)

/-- Decidable statement of claim C8's hypothesis: every occurrence of
`"/Type /Page"` or `"/Type/Page"` in the input is immediately followed by an
`'s'` byte (so every occurrence is part of `/Type /Pages`). -/
def pageMarkersFollowedByS (pdf : List Nat) : Bool :=
  followedBySAux pdf (strBytes "/Type /Page") pdf 0 &&
  followedBySAux pdf (strBytes "/Type/Page") pdf 0

/-! ## Concrete test vectors -/


/-- A deterministic stand-in for the detached CMS signer: always succeeds
with a tiny DER blob. -/
def okSigner : List Nat → Except PdfSignError (List Nat) := fun _ => Except.ok [48, 49, 50]

def wName : List Nat := strBytes "Fulano"

def wNow : List Nat := strBytes "20250101120000"

def wConfig : SignatureConfig :=
  { reason := strBytes "Motivo", location := strBytes "Local", contact_info := strBytes "Contato" }

/-- A minimal well-formed single-page PDF, ending in three `\n` bytes. -/
def wPdf : List Nat := strBytes "%PDF-1.4\n1 0 obj\n<< /Type /Catalog /Pages 2 0 R >>\nendobj\n2 0 obj\n<< /Type /Pages /Kids [3 0 R] /Count 1 >>\nendobj\n3 0 obj\n<< /Type /Page /Parent 2 0 R >>\nendobj\ntrailer\n<< /Size 4 /Root 1 0 R >>\nstartxref\n9\n%%EOF\n\n\n"

/-- `wPdf` with a decoy comment line containing the exact 61-byte
`ByteRange` placeholder string. -/
def xPdf : List Nat := strBytes "%PDF-1.4\n%/ByteRange [0000000 0000000 0000000 0000000]                 x\n1 0 obj\n<< /Type /Catalog /Pages 2 0 R >>\nendobj\n2 0 obj\n<< /Type /Pages /Kids [3 0 R] /Count 1 >>\nendobj\n3 0 obj\n<< /Type /Page /Parent 2 0 R >>\nendobj\ntrailer\n<< /Size 4 /Root 1 0 R >>\nstartxref\n9\n%%EOF\n\n\n"

/-- `wPdf` with the trailer `/Root` pointing at the non-existent object 99,
so that `catalog_obj = 99` exceeds the next object number `N = 4`. -/
def zPdf : List Nat := strBytes "%PDF-1.4\n1 0 obj\n<< /Type /Catalog /Pages 2 0 R >>\nendobj\n2 0 obj\n<< /Type /Pages /Kids [3 0 R] /Count 1 >>\nendobj\n3 0 obj\n<< /Type /Page /Parent 2 0 R >>\nendobj\ntrailer\n<< /Size 4 /Root 99 0 R >>\nstartxref\n9\n%%EOF\n"

/-- A PDF fragment with a page but no `trailer` keyword and no
`/Type /Catalog` (or `/Type/Catalog`) entry: both catalog-resolution
strategies fail on it. -/
def yPdf : List Nat := strBytes "2 0 obj\n<< /Type /Pages /Kids [3 0 R] /Count 1 >>\nendobj\n3 0 obj\n<< /Type /Page /Parent 2 0 R >>\nendobj\nstartxref\n0\n%%EOF\n"

/-- A PDF with a `/Type /Pages` node but no `/Type /Page` object. -/
def c8Pdf : List Nat := strBytes "1 0 obj\n<< /Type /Pages /Kids [] /Count 0 >>\nendobj\n"

/-! ## Decomposition of the assembled buffer around the `Contents` zeros run -/


/-- The part of the signature dictionary before the `Contents` placeholder's
`<`. -/
def sdA (nextObj : Nat) : List Nat :=
  decimalBytes nextObj ++
  strBytes " 0 obj\n<<\n/Type /Sig\n/Filter /Adobe.PPKLite\n/SubFilter /adbe.pkcs7.detached\n/ByteRange [0000000 0000000 0000000 0000000]                 \n/Contents "

/-- The part of the signature dictionary after the `Contents` placeholder's
`>`. -/
def sdB (reason contactInfo signerName location : List Nat) : List Nat :=
  strBytes "\n/Reason (" ++ reason ++
  strBytes ")\n/M (" ++ datePlaceholderBytes ++
  strBytes ")\n/ContactInfo (" ++ contactInfo ++
  strBytes ")\n/Name (" ++ signerName ++
  strBytes ")\n/Location (" ++ location ++
  strBytes ")\n/Prop_Build <<\n/Filter <<\n/Name /Adobe.PPKLite\n>>\n>>\n>>\nendobj\n"

/-! ## A concrete run on `xPdf` -/


/-- The catalog object rebuilt by `build_updated_catalog` for `xPdf`. -/
def xNC : List Nat :=
  strBytes "1 0 obj\n<<\n/Type /Catalog\n/Pages 2 0 R\n/AcroForm 5 0 R\n>>\nendobj\n"

/-- The assembled `xPdf` buffer up to and including the `<` that opens the
`Contents` placeholder. -/
def xPRE : List Nat := remove_trailing_newline xPdf ++ [10] ++ sdA 4 ++ [60]

/-- The assembled `xPdf` buffer from the `>` that closes the `Contents`
placeholder. -/
def xPOST : List Nat :=
  [62] ++ sdB wConfig.reason wConfig.contact_info wName wConfig.location ++
  (acroformBytes 4 ++ (sigFieldBytes 4 3 ++ (xNC ++
  (xrefBytes 1 16769 4 278 16589 16654 ++ trailerBytes 4 9 1 16834))))

/-- The assembled (pre-patch) buffer of the `xPdf` run. -/
def xOut0 : List Nat :=
  (assembleOutput wName wConfig (remove_trailing_newline xPdf) 4 3 1 xNC).output

/-- The padded `ByteRange` string of the `xPdf` run. -/
def xPad : List Nat := byteRangeRaw 0 427 (427 + 16002) 586 ++ List.replicate 33 32

/-- The `xPdf` buffer after the `ByteRange` patch. -/
def xOut1 : List Nat := writeAt xOut0 10 xPad

/-- The formatted signing date. -/
def xDateStr : List Nat := strBytes "D:" ++ wNow ++ strBytes "Z"

/-- The `xPdf` buffer after the `/M` date patch. -/
def xMid : List Nat := writeAt xOut1 16451 xDateStr

/-- The byte slab handed to the signer in the `xPdf` run. -/
def xTs : List Nat := listSlice xMid 0 427 ++ listSlice xMid (427 + 16002) (427 + 16002 + 586)

/-- The hex-encoded, zero-padded, bracketed `Contents` value of the `xPdf`
run. -/
def xFs : List Nat :=
  [60] ++ (hexEncode [48, 49, 50] ++
    List.replicate (sigSize - (hexEncode [48, 49, 50]).length) 48) ++ [62]

/-- The final returned buffer of the `xPdf` run. -/
def xOut : List Nat := writeAt xMid 427 xFs

instance : DecidableEq (Except PdfSignError Nat) := fun
  | .error a, .error b =>
    match decEq a b with
    | isTrue h => isTrue (by rw [h])
    | isFalse h => isFalse (fun hh => h (by injection hh))
  | .error _, .ok _ => isFalse (fun hh => Except.noConfusion hh)
  | .ok _, .error _ => isFalse (fun hh => Except.noConfusion hh)
  | .ok a, .ok b =>
    match decEq a b with
    | isTrue h => isTrue (by rw [h])
    | isFalse h => isFalse (fun hh => h (by injection hh))

/-! ## A concrete run on `yPdf` -/


/-- The assembled `yPdf` buffer up to and including the `<` that opens the
`Contents` placeholder. -/
def yPRE : List Nat := remove_trailing_newline yPdf ++ [10] ++ sdA 4 ++ [60]

/-- The assembled `yPdf` buffer from the `>` that closes the `Contents`
placeholder. -/
def yPOST : List Nat :=
  [62] ++ sdB wConfig.reason wConfig.contact_info wName wConfig.location ++
  (acroformBytes 4 ++ (sigFieldBytes 4 3 ++ (xNC ++
  (xrefBytes 1 16613 4 122 16433 16498 ++ trailerBytes 4 0 1 16678))))

/-- The assembled (pre-patch) buffer of the `yPdf` run. -/
def yOut0 : List Nat :=
  (assembleOutput wName wConfig (remove_trailing_newline yPdf) 4 3 1 xNC).output

/-- The padded `ByteRange` string of the `yPdf` run. -/
def yPad : List Nat := byteRangeRaw 0 271 (271 + 16002) 586 ++ List.replicate 33 32

/-- The `yPdf` buffer after the `ByteRange` patch. -/
def yOut1 : List Nat := writeAt yOut0 199 yPad

/-- The `yPdf` buffer after the `/M` date patch. -/
def yMid : List Nat := writeAt yOut1 16295 (strBytes "D:" ++ wNow ++ strBytes "Z")

/-- The byte slab handed to the signer in the `yPdf` run. -/
def yTs : List Nat := listSlice yMid 0 271 ++ listSlice yMid (271 + 16002) (271 + 16002 + 586)

/-- The final returned buffer of the `yPdf` run. -/
def yOut : List Nat := writeAt yMid 271 xFs

/-! ## A concrete run on `zPdf` -/


/-- The catalog object rebuilt by `build_updated_catalog` for `zPdf`. -/
def zNC : List Nat :=
  strBytes "99 0 obj\n<<\n/Type /Catalog\n/Pages 2 0 R\n/AcroForm 5 0 R\n>>\nendobj\n"

/-- The assembled `zPdf` buffer up to and including the `<` that opens the
`Contents` placeholder. -/
def zPRE : List Nat := remove_trailing_newline zPdf ++ [10] ++ sdA 4 ++ [60]

/-- The assembled `zPdf` buffer from the `>` that closes the `Contents`
placeholder. -/
def zPOST : List Nat :=
  [62] ++ sdB wConfig.reason wConfig.contact_info wName wConfig.location ++
  (acroformBytes 4 ++ (sigFieldBytes 4 3 ++ (zNC ++
  (xrefBytes 99 16706 4 215 16526 16591 ++ trailerBytes 4 9 99 16772))))

/-- The assembled (pre-patch) buffer of the `zPdf` run. -/
def zOut0 : List Nat :=
  (assembleOutput wName wConfig (remove_trailing_newline zPdf) 4 3 99 zNC).output

/-- The padded `ByteRange` string of the `zPdf` run. -/
def zPad : List Nat := byteRangeRaw 0 364 (364 + 16002) 589 ++ List.replicate 33 32

/-- The `zPdf` buffer after the `ByteRange` patch. -/
def zOut1 : List Nat := writeAt zOut0 292 zPad

/-- The `zPdf` buffer after the `/M` date patch. -/
def zMid : List Nat := writeAt zOut1 16388 (strBytes "D:" ++ wNow ++ strBytes "Z")

/-- The byte slab handed to the signer in the `zPdf` run. -/
def zTs : List Nat := listSlice zMid 0 364 ++ listSlice zMid (364 + 16002) (364 + 16002 + 589)

/-- The final returned buffer of the `zPdf` run. -/
def zOut : List Nat := writeAt zMid 364 xFs

/-! ## Claim C9: `get_next_object_number`'s heuristic -/


/-- The candidate object number the source's loop reads off one line: the
line's first whitespace-separated token parsed as a `u32`, kept whenever the
line contains `"0 obj"` anywhere. -/
def lineObjCandidate (line : List Nat) : Option Nat :=
  match (tokensOf line).head? with
  | none => none
  | some tok =>
    match parseNatLe u32Max tok with
    | none => none
    | some num => if containsSubseq (strBytes "0 obj") line then some num else none

/-- The decimal value of a digit run. -/
def digitsToNat (l : List Nat) : Nat := l.foldl (fun acc d => acc * 10 + (d - 48)) 0

/-- The specification's reading of `get_next_object_number` (this definition
follows the claim's wording, for comparison with the source translation): one
greater than the maximum `n` over all indirect-object headers `"n 0 obj"` —
a maximal digit run immediately followed by `" 0 obj"` — and `1` when no
such header occurs. -/
def specNextObjectNumber (input : List Nat) : Nat :=
  (((List.range input.length).filterMap (fun i =>
    if i == 0 || !isDigitByte (input.getD (i - 1) 0) then
      let digits := (input.drop i).takeWhile isDigitByte
      if !digits.isEmpty &&
          (strBytes " 0 obj").isPrefixOf ((input.drop i).drop digits.length) then
        some (digitsToNat digits)
      else none
    else none)).foldl Nat.max 0) + 1

/-! ## Theorems -/

/-! ## Lemmas about the scanning primitives -/


theorem isPrefixOf_eq_isPrefixOf_take (n m : List Nat) :
    n.isPrefixOf m = n.isPrefixOf (m.take n.length) := by
  by_cases h : n.isPrefixOf m
  · rw [h]
    have hp := List.isPrefixOf_iff_prefix.mp h
    have : n <+: m.take n.length := by
      rw [List.prefix_iff_eq_take] at hp ⊢
      rw [List.take_take]
      simpa [Nat.min_self] using hp
    exact (List.isPrefixOf_iff_prefix.mpr this).symm
  · by_cases h2 : n.isPrefixOf (m.take n.length)
    · exfalso
      exact h (List.isPrefixOf_iff_prefix.mpr
        ((List.isPrefixOf_iff_prefix.mp h2).trans (List.take_prefix _ _)))
    · simp [h, h2]

/-- An occurrence test at `j` only looks at the bytes below `j + needle.length`. -/
theorem isPrefixOf_drop_take {needle l : List Nat} {j K : Nat}
    (h : j + needle.length ≤ K) :
    needle.isPrefixOf ((l.take K).drop j) = needle.isPrefixOf (l.drop j) := by
  rw [isPrefixOf_eq_isPrefixOf_take needle ((l.take K).drop j),
      isPrefixOf_eq_isPrefixOf_take needle (l.drop j)]
  rw [List.drop_take, List.take_take]
  rw [show needle.length ⊓ (K - j) = needle.length from inf_eq_left.mpr (by omega)]

theorem head?_of_isPrefixOf {b : Nat} {rest l : List Nat}
    (h : (b :: rest).isPrefixOf l = true) : l.head? = some b := by
  have hp := List.isPrefixOf_iff_prefix.mp h
  cases l with
  | nil => simp at hp
  | cons x t => rw [List.cons_prefix_cons] at hp; simp [hp.1.symm]

theorem getElem?_of_isPrefixOf {needle l : List Nat} {j k : Nat}
    (h : needle.isPrefixOf (l.drop j) = true) (hk : k < needle.length) :
    l[j + k]? = needle[k]? := by
  have hp := List.isPrefixOf_iff_prefix.mp h
  rw [List.prefix_iff_eq_take] at hp
  have : needle[k]? = ((l.drop j).take needle.length)[k]? := by rw [← hp]
  rw [this, List.getElem?_take, if_pos hk, List.getElem?_drop]

theorem findSubseqAux_some {needle l : List Nat} {i j : Nat}
    (h : findSubseqAux needle l i = some j) :
    i ≤ j ∧ needle.isPrefixOf (l.drop (j - i)) = true ∧ j - i + needle.length ≤ l.length := by
  induction l generalizing i with
  | nil =>
    unfold findSubseqAux at h
    by_cases hne : needle.isEmpty
    · simp only [hne, if_true, Option.some.injEq] at h
      subst h
      have : needle = [] := List.isEmpty_iff.mp hne
      simp [this]
    · simp [hne] at h
  | cons a t ih =>
    unfold findSubseqAux at h
    by_cases hp : needle.isPrefixOf (a :: t)
    · simp only [hp, if_true, Option.some.injEq] at h
      subst h
      have hl := (List.isPrefixOf_iff_prefix.mp hp).length_le
      refine ⟨le_refl _, ?_, ?_⟩
      · simpa using hp
      · simp at hl ⊢; omega
    · simp only [hp, if_false] at h
      obtain ⟨hij, hpre, hlen⟩ := ih h
      refine ⟨by omega, ?_, ?_⟩
      · have : j - i = (j - (i + 1)) + 1 := by omega
        rw [this, List.drop_succ_cons]
        exact hpre
      · simp; omega

theorem findSubseq_some {needle l : List Nat} {j : Nat}
    (h : findSubseq needle l = some j) :
    needle.isPrefixOf (l.drop j) = true ∧ j + needle.length ≤ l.length := by
  have h2 := findSubseqAux_some (i := 0) h
  rw [Nat.sub_zero] at h2
  exact ⟨h2.2.1, h2.2.2⟩

theorem findSubseqAux_eq_some {needle l : List Nat} {i j : Nat}
    (hj : i ≤ j)
    (hocc : needle.isPrefixOf (l.drop (j - i)) = true)
    (hbefore : ∀ k, i ≤ k → k < j → needle.isPrefixOf (l.drop (k - i)) = false) :
    findSubseqAux needle l i = some j := by
  induction l generalizing i with
  | nil =>
    have hij : i = j := by
      by_contra hne
      have := hbefore i (le_refl i) (by omega)
      simp only [Nat.sub_self, List.drop_nil] at this hocc
      rw [this] at hocc
      exact Bool.false_ne_true hocc
    subst hij
    simp only [Nat.sub_self, List.drop_nil] at hocc
    have : needle = [] := by
      have := List.isPrefixOf_iff_prefix.mp hocc
      exact List.prefix_nil.mp this
    unfold findSubseqAux
    simp [this]
  | cons a t ih =>
    rcases Nat.eq_or_lt_of_le hj with heq | hlt
    · subst heq
      simp only [Nat.sub_self, List.drop_zero] at hocc
      unfold findSubseqAux
      simp [hocc]
    · have hfirst : needle.isPrefixOf (a :: t) = false := by
        have := hbefore i (le_refl i) hlt
        simpa using this
      unfold findSubseqAux
      simp only [hfirst, if_false]
      apply ih (by omega)
      · have : j - i = (j - (i + 1)) + 1 := by omega
        rw [this, List.drop_succ_cons] at hocc
        exact hocc
      · intro k hk1 hk2
        have := hbefore k (by omega) hk2
        have hrw : k - i = (k - (i + 1)) + 1 := by omega
        rw [hrw, List.drop_succ_cons] at this
        exact this

theorem findSubseq_eq_some {needle l : List Nat} {j : Nat}
    (hocc : needle.isPrefixOf (l.drop j) = true)
    (hbefore : ∀ k, k < j → needle.isPrefixOf (l.drop k) = false) :
    findSubseq needle l = some j := by
  apply findSubseqAux_eq_some (Nat.zero_le j)
  · simpa using hocc
  · intro k _ hk
    simpa using hbefore k hk

theorem findSubseqAux_eq_none {needle l : List Nat} {i : Nat}
    (h : findSubseqAux needle l i = none) :
    ∀ j, needle.isPrefixOf (l.drop j) = false := by
  induction l generalizing i with
  | nil =>
    intro j
    unfold findSubseqAux at h
    by_cases hne : needle.isEmpty
    · simp [hne] at h
    · cases needle with
      | nil => simp at hne
      | cons b bs => simp [List.isPrefixOf]
  | cons a t ih =>
    intro j
    unfold findSubseqAux at h
    by_cases hp : needle.isPrefixOf (a :: t)
    · simp [hp] at h
    · simp only [hp, if_false] at h
      cases j with
      | zero =>
        rw [List.drop_zero]
        simp only [Bool.not_eq_true] at hp
        exact hp
      | succ k => rw [List.drop_succ_cons]; exact ih h k

theorem contains_of_occurs {needle l : List Nat} {j : Nat}
    (h : needle.isPrefixOf (l.drop j) = true) : containsSubseq needle l = true := by
  unfold containsSubseq findSubseq
  cases hf : findSubseqAux needle l 0 with
  | none => rw [findSubseqAux_eq_none hf j] at h; exact absurd h (by simp)
  | some k => simp

theorem noOccurIn_sound {needle : List Nat} (hne : needle ≠ []) :
    ∀ {l : List Nat} {K : Nat}, noOccurIn needle l K = true →
      ∀ j < K, needle.isPrefixOf (l.drop j) = false := by
  intro l
  induction l with
  | nil =>
    intro K _ j _
    cases needle with
    | nil => exact absurd rfl hne
    | cons b bs => simp [List.isPrefixOf]
  | cons a t ih =>
    intro K h j hj
    cases K with
    | zero => omega
    | succ k =>
      unfold noOccurIn at h
      rw [Bool.and_eq_true] at h
      cases j with
      | zero => simpa using h.1
      | succ m => rw [List.drop_succ_cons]; exact ih h.2 m (by omega)

/-! ## Lemmas about `writeAt` -/


theorem length_writeAt {buf v : List Nat} {pos : Nat} (h : pos + v.length ≤ buf.length) :
    (writeAt buf pos v).length = buf.length := by
  simp [writeAt]
  omega

theorem take_writeAt_of_le {buf v : List Nat} {pos k : Nat} (hk : k ≤ pos)
    (hp : pos ≤ buf.length) :
    (writeAt buf pos v).take k = buf.take k := by
  unfold writeAt
  rw [List.take_append_of_le_length (by simp; omega),
      List.take_append_of_le_length (by simp; omega), List.take_take]
  congr 1
  exact inf_eq_left.mpr (by omega)

theorem drop_writeAt_of_ge {buf v : List Nat} {pos : Nat} (hp : pos ≤ buf.length) :
    (writeAt buf pos v).drop (pos + v.length) = buf.drop (pos + v.length) := by
  unfold writeAt
  have hlen : (buf.take pos ++ v).length = pos + v.length := by simp; omega
  nth_rewrite 1 [← hlen]
  rw [List.drop_left]

/-! ## Inversion lemmas for the patch steps -/


theorem patchByteRangeStep_ok {output : List Nat} {rangePos v0 v1 v2 v3 : Nat} {u : List Nat}
    (h : patchByteRangeStep output rangePos v0 v1 v2 v3 = Outcome.ok u) :
    ∃ pad : List Nat, pad.length = byteRangePlaceholder.length ∧
      u = writeAt output rangePos pad := by
  unfold patchByteRangeStep at h
  simp only [] at h
  split at h
  · exact Outcome.noConfusion h
  · split at h
    · exact Outcome.noConfusion h
    · rename_i hne
      injection h with h
      refine ⟨_, ?_, h.symm⟩
      simpa using hne

theorem injectSignatureStep_ok {buf : List Nat} {pos plen : Nat} {cms u : List Nat}
    (h : injectSignatureStep buf pos plen cms = Outcome.ok u) :
    plen = sigSize + 2 ∧
      ∃ fs : List Nat, fs.length = sigSize + 2 ∧ u = writeAt buf pos fs := by
  unfold injectSignatureStep at h
  simp only [] at h
  split at h
  · exact Outcome.noConfusion h
  · rename_i hsz
    split at h
    · exact Outcome.noConfusion h
    · rename_i hne
      injection h with h
      simp only [ne_eq, not_not] at hne
      have hflen : ((60 : Nat) :: (hexEncode cms ++
          List.replicate (sigSize - (hexEncode cms).length) 48) ++ [62]).length = sigSize + 2 := by
        simp only [not_lt] at hsz
        simp [List.length_append]
        omega
      constructor
      · rw [← hne]
        simpa using hflen
      · exact ⟨_, by simpa using hflen, h.symm⟩

theorem assembleOutput_xref {signerName : List Nat} {config : SignatureConfig} {p : List Nat}
    {nextObj firstPageObj catalogObj : Nat} {newCatalog : List Nat} :
    (assembleOutput signerName config p nextObj firstPageObj catalogObj newCatalog).xref =
      xrefBytes catalogObj
        (assembleOutput signerName config p nextObj firstPageObj catalogObj newCatalog).newCatalogPos
        nextObj
        (assembleOutput signerName config p nextObj firstPageObj catalogObj newCatalog).sigDictPos
        (assembleOutput signerName config p nextObj firstPageObj catalogObj newCatalog).acroformPos
        (assembleOutput signerName config p nextObj firstPageObj catalogObj newCatalog).sigFieldPos := rfl

set_option maxHeartbeats 2000000 in
/-- Everything that holds of the recorded `SignOutput` whenever
`sign_pdf_bytes` succeeds, obtained by inverting the success path. -/
theorem sign_ok_facts {signer : List Nat → Except PdfSignError (List Nat)}
    {signerName nowStr : List Nat} {config : SignatureConfig} {pdfData : List Nat}
    {r : SignOutput}
    (h : sign_pdf_bytes signer signerName nowStr config pdfData = Outcome.ok r) :
    r.br0 = 0 ∧ r.br1 = r.a ∧ r.br2 = r.a + r.L ∧
    r.L = sigSize + 2 ∧
    r.a + r.L + r.br3 = r.out.length ∧
    r.out.length = r.out0.length ∧
    r.mid.length = r.out0.length ∧
    findSubseq byteRangePlaceholder r.out0 = some r.rangePos ∧
    r.byterangeEnd = r.rangePos + byteRangePlaceholder.length ∧
    findSubseq (strBytes "/Contents ") (r.out0.drop r.byterangeEnd) =
      some (r.contentsTagPos - r.byterangeEnd) ∧
    r.byterangeEnd ≤ r.contentsTagPos ∧
    findSubseq [60] (r.out0.drop r.contentsTagPos) = some (r.a - r.contentsTagPos) ∧
    r.contentsTagPos ≤ r.a ∧
    findSubseq [62] (r.out0.drop r.a) = some (r.L - 1) ∧
    r.toSign = r.mid.take r.a ++ r.mid.drop (r.a + r.L) ∧
    r.out.take r.a = r.mid.take r.a ∧
    r.out.drop (r.a + r.L) = r.mid.drop (r.a + r.L) ∧
    r.xref = xrefBytes r.catalogObj r.newCatalogPos r.nextObj r.sigDictPos r.acroformPos
      r.sigFieldPos := by
  have hbrLen : byteRangePlaceholder.length = 61 := by decide
  have hdpbLen : datePlaceholderBytes.length = 17 := by decide
  unfold sign_pdf_bytes at h
  simp only [] at h
  split at h
  · exact Outcome.noConfusion h
  rename_i firstPageObj hpage
  split at h
  · exact Outcome.noConfusion h
  rename_i newCatalog hcat
  split at h
  · exact Outcome.noConfusion h
  rename_i rangePos hbr
  split at h
  · exact Outcome.noConfusion h
  rename_i c0 hcnt
  split at h
  · exact Outcome.noConfusion h
  rename_i d0 hlt
  split at h
  · exact Outcome.noConfusion h
  rename_i e0 hgt
  split at h
  · exact Outcome.noConfusion h
  · exact Outcome.noConfusion h
  rename_i out1 hpatch
  split at h
  · exact Outcome.noConfusion h
  rename_i datePos hdate
  split at h
  · exact Outcome.noConfusion h
  rename_i hdlen
  split at h
  · exact Outcome.noConfusion h
  rename_i finalCms hsigner
  split at h
  · exact Outcome.noConfusion h
  · exact Outcome.noConfusion h
  rename_i out hinj
  injection h with h
  subst h
  obtain ⟨pad, hpadLen, hout1⟩ := patchByteRangeStep_ok hpatch
  obtain ⟨hL16002, fs, hfsLen, hout⟩ := injectSignatureStep_ok hinj
  obtain ⟨hbrPre, hbrBound⟩ := findSubseq_some hbr
  obtain ⟨hgtPre, hgtBound⟩ := findSubseq_some hgt
  obtain ⟨hdatePre, hdateBound⟩ := findSubseq_some hdate
  rw [List.length_drop] at hgtBound
  simp only [List.length_cons, List.length_nil] at hgtBound
  rw [hbrLen] at hbrBound
  rw [hdpbLen] at hdateBound
  rw [hbrLen] at hcnt hlt hgt hpatch hL16002 hinj hsigner hpadLen ⊢
  have hds : (strBytes "D:" ++ nowStr ++ strBytes "Z").length = 17 := by
    simp only [ne_eq, not_not] at hdlen
    rw [hdlen, hdpbLen]
  have hppLe : d0 + (c0 + (rangePos + 61)) + (sigSize + 2) ≤
      (assembleOutput signerName config (remove_trailing_newline pdfData)
        (get_next_object_number (remove_trailing_newline pdfData)) firstPageObj
        (extract_catalog_info (remove_trailing_newline pdfData)).catalog_obj
        newCatalog).output.length := by
    omega
  have hout1Len : out1.length =
      (assembleOutput signerName config (remove_trailing_newline pdfData)
        (get_next_object_number (remove_trailing_newline pdfData)) firstPageObj
        (extract_catalog_info (remove_trailing_newline pdfData)).catalog_obj
        newCatalog).output.length := by
    rw [hout1]
    exact length_writeAt (by omega)
  have hmidLen : (writeAt out1 datePos (strBytes "D:" ++ nowStr ++ strBytes "Z")).length =
      out1.length := by
    exact length_writeAt (by omega)
  have houtLen : out.length = out1.length := by
    rw [hout, length_writeAt (by omega), hmidLen]
  dsimp only
  refine ⟨rfl, rfl, rfl, hL16002, ?_, ?_, ?_, hbr, rfl, ?_, ?_, ?_, ?_, ?_, ?_, ?_, ?_, ?_⟩
  · show d0 + (c0 + (rangePos + 61)) + _ + _ = out.length
    rw [houtLen, hout1Len]
    omega
  · show out.length = _
    rw [houtLen, hout1Len]
  · show (writeAt out1 datePos (strBytes "D:" ++ nowStr ++ strBytes "Z")).length = _
    rw [hmidLen, hout1Len]
  · show findSubseq (strBytes "/Contents ") _ = some (c0 + (rangePos + 61) - (rangePos + 61))
    rw [Nat.add_sub_cancel]
    exact hcnt
  · show rangePos + 61 ≤ c0 + (rangePos + 61)
    omega
  · show findSubseq [60] _ = some (d0 + (c0 + (rangePos + 61)) - (c0 + (rangePos + 61)))
    rw [Nat.add_sub_cancel]
    exact hlt
  · show c0 + (rangePos + 61) ≤ d0 + (c0 + (rangePos + 61))
    omega
  · show findSubseq [62] _ = some _
    rw [show e0 + (d0 + (c0 + (rangePos + 61))) + 1 - (d0 + (c0 + (rangePos + 61))) - 1 = e0 by
      omega]
    exact hgt
  · show listSlice _ 0 _ ++ listSlice _ _ _ = _
    have h1 : listSlice (writeAt out1 datePos (strBytes "D:" ++ nowStr ++ strBytes "Z")) 0
        (d0 + (c0 + (rangePos + 61))) =
        (writeAt out1 datePos (strBytes "D:" ++ nowStr ++ strBytes "Z")).take
          (d0 + (c0 + (rangePos + 61))) := by
      simp [listSlice]
    rw [h1]
    congr 1
    rw [listSlice, show d0 + (c0 + (rangePos + 61)) +
        (e0 + (d0 + (c0 + (rangePos + 61))) + 1 - (d0 + (c0 + (rangePos + 61)))) +
        ((assembleOutput signerName config (remove_trailing_newline pdfData)
          (get_next_object_number (remove_trailing_newline pdfData)) firstPageObj
          (extract_catalog_info (remove_trailing_newline pdfData)).catalog_obj
          newCatalog).output.length -
          (d0 + (c0 + (rangePos + 61)) +
            (e0 + (d0 + (c0 + (rangePos + 61))) + 1 - (d0 + (c0 + (rangePos + 61)))))) =
        (writeAt out1 datePos (strBytes "D:" ++ nowStr ++ strBytes "Z")).length by
      rw [hmidLen, hout1Len]; omega]
    rw [List.take_length]
  · show out.take _ = _
    rw [hout]
    exact take_writeAt_of_le (le_refl _) (by rw [hmidLen]; omega)
  · show out.drop _ = _
    rw [hout]
    have hd := @drop_writeAt_of_ge (writeAt out1 datePos
      (strBytes "D:" ++ nowStr ++ strBytes "Z")) fs
      (d0 + (c0 + (rangePos + 61))) (by rw [hmidLen]; omega)
    rw [show d0 + (c0 + (rangePos + 61)) +
        (e0 + (d0 + (c0 + (rangePos + 61))) + 1 - (d0 + (c0 + (rangePos + 61)))) =
        d0 + (c0 + (rangePos + 61)) + fs.length by omega]
    exact hd
  · exact @assembleOutput_xref _ _ _ _ _ _ newCatalog

theorem onOk_of_ok {o : Outcome SignOutput} {P : SignOutput → Prop} {r : SignOutput}
    (h : o = Outcome.ok r) (hp : P r) : OnOk o P := by
  intro r' hr'
  rw [h] at hr'
  injection hr' with e
  subst e
  exact hp

theorem okAnd_of_ok {o : Outcome SignOutput} {P : SignOutput → Prop} {r : SignOutput}
    (h : o = Outcome.ok r) (hp : P r) : OkAnd o P := ⟨r, h, hp⟩

/-- Claim C1 (amended: the `ByteRange` placeholder is 61 bytes, not 63): on
every signing call on which `sign_pdf_bytes` succeeds, the four `ByteRange`
integers are `[0, a, b, c]` where `a` is the byte offset of the `<` opening
the `Contents` placeholder — the first `<` at or after the first
`/Contents ` token following the 61-byte `ByteRange` placeholder —
`b = a + L` with `L = SIG_SLOT + 2 = 16002` the placeholder length including
both angle brackets, and `c` the total output length minus `b`; hence
`b = a + L` and `a + L + c = len(output)`. -/
theorem claim_C1 (signer : List Nat → Except PdfSignError (List Nat))
    (signerName nowStr : List Nat) (config : SignatureConfig) (pdfData : List Nat) :
    OnOk (sign_pdf_bytes signer signerName nowStr config pdfData) fun r =>
      r.br0 = 0 ∧ r.br1 = r.a ∧ r.br2 = r.a + r.L ∧ r.L = sigSize + 2 ∧
      r.a + r.L + r.br3 = r.out.length ∧
      byteRangePlaceholder.length = 61 ∧
      findSubseq byteRangePlaceholder r.out0 = some r.rangePos ∧
      findSubseq (strBytes "/Contents ")
        (r.out0.drop (r.rangePos + byteRangePlaceholder.length)) =
        some (r.contentsTagPos - (r.rangePos + byteRangePlaceholder.length)) ∧
      findSubseq [60] (r.out0.drop r.contentsTagPos) = some (r.a - r.contentsTagPos) ∧
      findSubseq [62] (r.out0.drop r.a) = some (r.L - 1) ∧
      r.out.length = r.out0.length := by
  intro r hs
  obtain ⟨f1, f2, f3, f4, f5, f6, f7, f8, f9, f10, f11, f12, f13, f14, f15, f16, f17, f18⟩ :=
    sign_ok_facts hs
  exact ⟨f1, f2, f3, f4, f5, by decide, f8, by rw [← f9]; exact f10, f12, f14, f6⟩

/-- Claim C1 counterexample: the claim describes "the 63-byte ByteRange
placeholder", but the placeholder string the source writes and searches for
(`"/ByteRange [0000000 0000000 0000000 0000000]"` followed by 17 spaces) is
61 bytes long, not 63. -/
theorem claim_C1_counterexample :
    byteRangePlaceholder.length = 61 ∧ (byteRangePlaceholder.length == 63) = false := by
  constructor
  · decide
  · decide

/-- Claim C2: on every successful signing call, the byte slab handed to the
detached CMS signer equals `output[0..a] ++ output[a+L..]` as computed on the
buffer `mid` obtained after both the `ByteRange` patch and the `/M` date
patch; the subsequent `Contents` patch leaves every byte outside `[a, a+L)`
unchanged, so the same slab is recovered from the final returned buffer. -/
theorem claim_C2 (signer : List Nat → Except PdfSignError (List Nat))
    (signerName nowStr : List Nat) (config : SignatureConfig) (pdfData : List Nat) :
    OnOk (sign_pdf_bytes signer signerName nowStr config pdfData) fun r =>
      r.toSign = r.mid.take r.a ++ r.mid.drop (r.a + r.L) ∧
      r.out.take r.a = r.mid.take r.a ∧
      r.out.drop (r.a + r.L) = r.mid.drop (r.a + r.L) ∧
      r.toSign = r.out.take r.a ++ r.out.drop (r.a + r.L) := by
  intro r hs
  obtain ⟨f1, f2, f3, f4, f5, f6, f7, f8, f9, f10, f11, f12, f13, f14, f15, f16, f17, f18⟩ :=
    sign_ok_facts hs
  exact ⟨f15, f16, f17, by rw [f15, f16, f17]⟩

/-- Claim C7 (amended): the incremental xref subsections are always emitted in
the fixed order: the subsection for object 0 first, then the subsection for
the re-emitted catalog object, then the subsection for the three new objects
starting at `N` — regardless of whether `catalog_obj < N` or
`catalog_obj > N`; no sorting by first object number is performed. -/
theorem claim_C7 (signer : List Nat → Except PdfSignError (List Nat))
    (signerName nowStr : List Nat) (config : SignatureConfig) (pdfData : List Nat) :
    OnOk (sign_pdf_bytes signer signerName nowStr config pdfData) fun r =>
      r.xref = strBytes "xref\n0 1\n0000000000 65535 f \n" ++
        decimalBytes r.catalogObj ++ strBytes " 1\n" ++
        padZeros10 r.newCatalogPos ++ strBytes " 00000 n \n" ++
        decimalBytes r.nextObj ++ strBytes " 3\n" ++
        padZeros10 r.sigDictPos ++ strBytes " 00000 n \n" ++
        padZeros10 r.acroformPos ++ strBytes " 00000 n \n" ++
        padZeros10 r.sigFieldPos ++ strBytes " 00000 n \n" := by
  intro r hs
  obtain ⟨f1, f2, f3, f4, f5, f6, f7, f8, f9, f10, f11, f12, f13, f14, f15, f16, f17, f18⟩ :=
    sign_ok_facts hs
  exact f18

theorem extract_first_page_info_ok {pdf : List Nat} {n : Nat}
    (h : extract_first_page_info pdf = Except.ok n) :
    find_first_page_by_pattern pdf = some n := by
  unfold extract_first_page_info at h
  split at h
  · rename_i m hm
    injection h with h
    rw [hm, h]
  · exact Except.noConfusion h

theorem assembleOutput_sigDictPos {signerName : List Nat} {config : SignatureConfig}
    {p : List Nat} {nextObj firstPageObj catalogObj : Nat} {newCatalog : List Nat} :
    (assembleOutput signerName config p nextObj firstPageObj catalogObj
      newCatalog).sigDictPos = p.length + 1 := by
  simp [assembleOutput]

theorem assembleOutput_take_prefix {signerName : List Nat} {config : SignatureConfig}
    {p : List Nat} {nextObj firstPageObj catalogObj : Nat} {newCatalog : List Nat} :
    (assembleOutput signerName config p nextObj firstPageObj catalogObj
      newCatalog).output.take (p.length + 1) = p ++ [10] := by
  show (((((((p ++ [10]) ++ _) ++ _) ++ _) ++ _) ++ _) ++ _).take (p.length + 1) = p ++ [10]
  have hlen : p.length + 1 = (p ++ [10]).length := by simp
  rw [List.take_append_of_le_length (by simp),
      List.take_append_of_le_length (by simp),
      List.take_append_of_le_length (by simp),
      List.take_append_of_le_length (by simp),
      List.take_append_of_le_length (by simp),
      List.take_append_of_le_length (by simp),
      hlen, List.take_length]

set_option maxHeartbeats 2000000 in
/-- Structural facts recorded by a successful `sign_pdf_bytes` call: how the
pre-patch buffer was assembled and how the three in-place patches were
applied to it. -/
theorem sign_ok_layout {signer : List Nat → Except PdfSignError (List Nat)}
    {signerName nowStr : List Nat} {config : SignatureConfig} {pdfData : List Nat}
    {r : SignOutput}
    (h : sign_pdf_bytes signer signerName nowStr config pdfData = Outcome.ok r) :
    find_first_page_by_pattern (remove_trailing_newline pdfData) = some r.firstPageObj ∧
    r.catalogObj = (extract_catalog_info (remove_trailing_newline pdfData)).catalog_obj ∧
    r.pagesRef = (extract_catalog_info (remove_trailing_newline pdfData)).pages_ref ∧
    r.nextObj = get_next_object_number (remove_trailing_newline pdfData) ∧
    r.sigDictPos = (remove_trailing_newline pdfData).length + 1 ∧
    ∃ newCatalog pad fs : List Nat,
      build_updated_catalog
        (extract_catalog_info (remove_trailing_newline pdfData)).catalog_obj
        (extract_catalog_info (remove_trailing_newline pdfData)).pages_ref
        (get_next_object_number (remove_trailing_newline pdfData) + 1)
        (remove_trailing_newline pdfData) = some newCatalog ∧
      r.out0 = (assembleOutput signerName config (remove_trailing_newline pdfData)
        (get_next_object_number (remove_trailing_newline pdfData)) r.firstPageObj
        (extract_catalog_info (remove_trailing_newline pdfData)).catalog_obj
        newCatalog).output ∧
      pad.length = byteRangePlaceholder.length ∧
      findSubseq datePlaceholderBytes (writeAt r.out0 r.rangePos pad) = some r.datePos ∧
      (strBytes "D:" ++ nowStr ++ strBytes "Z").length = 17 ∧
      r.mid = writeAt (writeAt r.out0 r.rangePos pad) r.datePos
        (strBytes "D:" ++ nowStr ++ strBytes "Z") ∧
      fs.length = sigSize + 2 ∧
      r.out = writeAt r.mid r.a fs := by
  have hdpbLen : datePlaceholderBytes.length = 17 := by decide
  unfold sign_pdf_bytes at h
  simp only [] at h
  split at h
  · exact Outcome.noConfusion h
  rename_i firstPageObj hpage
  split at h
  · exact Outcome.noConfusion h
  rename_i newCatalog hcat
  split at h
  · exact Outcome.noConfusion h
  rename_i rangePos hbr
  split at h
  · exact Outcome.noConfusion h
  rename_i c0 hcnt
  split at h
  · exact Outcome.noConfusion h
  rename_i d0 hlt
  split at h
  · exact Outcome.noConfusion h
  rename_i e0 hgt
  split at h
  · exact Outcome.noConfusion h
  · exact Outcome.noConfusion h
  rename_i out1 hpatch
  split at h
  · exact Outcome.noConfusion h
  rename_i datePos hdate
  split at h
  · exact Outcome.noConfusion h
  rename_i hdlen
  split at h
  · exact Outcome.noConfusion h
  rename_i finalCms hsigner
  split at h
  · exact Outcome.noConfusion h
  · exact Outcome.noConfusion h
  rename_i out hinj
  injection h with h
  subst h
  obtain ⟨pad, hpadLen, hout1⟩ := patchByteRangeStep_ok hpatch
  obtain ⟨hL16002, fs, hfsLen, hout⟩ := injectSignatureStep_ok hinj
  have hds : (strBytes "D:" ++ nowStr ++ strBytes "Z").length = 17 := by
    simp only [ne_eq, not_not] at hdlen
    rw [hdlen, hdpbLen]
  dsimp only
  refine ⟨extract_first_page_info_ok hpage, rfl, rfl, rfl, assembleOutput_sigDictPos,
    newCatalog, pad, fs, hcat, rfl, hpadLen, ?_, hds, ?_, hfsLen, ?_⟩
  · rw [← hout1]
    exact hdate
  · rw [← hout1]
  · rw [hout]

theorem mem_of_getElem?_needle {needle : List Nat} {k b : Nat}
    (h : needle[k]? = some b) : b ∈ needle := by
  obtain ⟨hk, he⟩ := List.getElem?_eq_some_iff.mp h
  exact he ▸ List.getElem_mem hk

/-- If `buf` starts with `p ++ [10]`, the needle contains no `\n` byte and
does not occur in `p`, then any occurrence of the needle in `buf` lies
strictly beyond the separating `\n`. -/
theorem occurrence_ge_of_clean {needle buf p : List Nat} {j : Nat}
    (h10 : ∀ b ∈ needle, b ≠ 10)
    (htake : buf.take (p.length + 1) = p ++ [10])
    (hclean : containsSubseq needle p = false)
    (hocc : needle.isPrefixOf (buf.drop j) = true) :
    p.length + 1 ≤ j := by
  by_contra hlt
  push_neg at hlt
  have hj : j ≤ p.length := by omega
  have htaken : buf.take p.length = p := by
    have h1 : buf.take p.length = (buf.take (p.length + 1)).take p.length := by
      rw [List.take_take, inf_eq_left.mpr (by omega)]
    rw [h1, htake, List.take_append_of_le_length (le_refl _), List.take_length]
  by_cases hfit : j + needle.length ≤ p.length
  · have htr : needle.isPrefixOf ((buf.take p.length).drop j) = true := by
      rw [isPrefixOf_drop_take hfit]
      exact hocc
    rw [htaken] at htr
    rw [contains_of_occurs htr] at hclean
    exact Bool.noConfusion hclean
  · push_neg at hfit
    have hk : p.length - j < needle.length := by omega
    have hbyte := getElem?_of_isPrefixOf hocc hk
    have hjk : j + (p.length - j) = p.length := by omega
    rw [hjk] at hbyte
    have hbn : buf[p.length]? = some 10 := by
      have h1 : (buf.take (p.length + 1))[p.length]? = buf[p.length]? := by
        rw [List.getElem?_take, if_pos (by omega)]
      rw [htake, List.getElem?_append_right (le_refl _), Nat.sub_self] at h1
      exact h1.symm
    rw [hbn] at hbyte
    exact h10 10 (mem_of_getElem?_needle hbyte.symm) rfl

set_option maxHeartbeats 1000000 in
/-- Claim C3 (amended: provided the stripped input contains neither the
61-byte `ByteRange` placeholder string nor the `/M` date placeholder string
as a substring): the returned buffer begins at offset 0 with the input
stripped of its trailing `\n`/`\r` bytes, byte-for-byte unchanged, followed
by exactly one `\n` byte, and the first appended object starts immediately
after that single `\n` (so for an input ending in `\n\n\n` exactly one `\n`
separates the original bytes from the first new object). -/
theorem claim_C3 (signer : List Nat → Except PdfSignError (List Nat))
    (signerName nowStr : List Nat) (config : SignatureConfig) (pdfData : List Nat)
    (hBr : containsSubseq byteRangePlaceholder (remove_trailing_newline pdfData) = false)
    (hDate : containsSubseq datePlaceholderBytes (remove_trailing_newline pdfData) = false) :
    OnOk (sign_pdf_bytes signer signerName nowStr config pdfData) fun r =>
      r.out.take (remove_trailing_newline pdfData).length = remove_trailing_newline pdfData ∧
      r.out[(remove_trailing_newline pdfData).length]? = some 10 ∧
      r.sigDictPos = (remove_trailing_newline pdfData).length + 1 := by
  intro r hs
  obtain ⟨f1, f2, f3, f4, f5, f6, f7, f8, f9, f10, f11, f12, f13, f14, f15, f16, f17, f18⟩ :=
    sign_ok_facts hs
  obtain ⟨hfp, hcat', hpages', hnext', hsdp, nc, pad, fs, hnc, hout0, hpadLen, hdfind,
    hds17, hmid, hfsLen, hout⟩ := sign_ok_layout hs
  obtain ⟨hbrPre, hbrBound⟩ := findSubseq_some f8
  have hbrLen : byteRangePlaceholder.length = 61 := by decide
  have htake0 : r.out0.take ((remove_trailing_newline pdfData).length + 1) =
      remove_trailing_newline pdfData ++ [10] := by
    rw [hout0]
    exact assembleOutput_take_prefix
  have hrpge : (remove_trailing_newline pdfData).length + 1 ≤ r.rangePos :=
    occurrence_ge_of_clean (by decide) htake0 hBr hbrPre
  have htake1 : (writeAt r.out0 r.rangePos pad).take
      ((remove_trailing_newline pdfData).length + 1) =
      remove_trailing_newline pdfData ++ [10] := by
    rw [take_writeAt_of_le hrpge (by omega), htake0]
  obtain ⟨hdPre, hdBound⟩ := findSubseq_some hdfind
  have hdpbLen : datePlaceholderBytes.length = 17 := by decide
  have hdge : (remove_trailing_newline pdfData).length + 1 ≤ r.datePos :=
    occurrence_ge_of_clean (by decide) htake1 hDate hdPre
  have hwLen : (writeAt r.out0 r.rangePos pad).length = r.out0.length := by
    exact length_writeAt (by omega)
  have htakeMid : r.mid.take ((remove_trailing_newline pdfData).length + 1) =
      remove_trailing_newline pdfData ++ [10] := by
    rw [hmid, take_writeAt_of_le hdge (by omega), htake1]
  have hage : (remove_trailing_newline pdfData).length + 1 ≤ r.a := by
    omega
  have htakeOut : r.out.take ((remove_trailing_newline pdfData).length + 1) =
      remove_trailing_newline pdfData ++ [10] := by
    rw [hout, take_writeAt_of_le hage (by omega), htakeMid]
  refine ⟨?_, ?_, hsdp⟩
  · have h1 : r.out.take (remove_trailing_newline pdfData).length =
        (r.out.take ((remove_trailing_newline pdfData).length + 1)).take
          (remove_trailing_newline pdfData).length := by
      rw [List.take_take, inf_eq_left.mpr (by omega)]
    rw [h1, htakeOut, List.take_append_of_le_length (le_refl _), List.take_length]
  · have h1 : (r.out.take ((remove_trailing_newline pdfData).length + 1))[(remove_trailing_newline pdfData).length]? = r.out[(remove_trailing_newline pdfData).length]? := by
      rw [List.getElem?_take, if_pos (by omega)]
    rw [htakeOut, List.getElem?_append_right (le_refl _), Nat.sub_self] at h1
    exact h1.symm

/-! ## Lemmas about `remove_trailing_newline` -/


theorem remove_trailing_newline_isPrefix (p : List Nat) :
    remove_trailing_newline p <+: p := by
  unfold remove_trailing_newline
  have h1 : ((p.reverse.dropWhile (· == 10)).dropWhile (· == 13)) <:+ p.reverse :=
    (List.dropWhile_suffix _).trans (List.dropWhile_suffix _)
  have h2 := List.reverse_prefix.mpr h1
  rwa [List.reverse_reverse] at h2

theorem remove_trailing_newline_eq_take (p : List Nat) :
    remove_trailing_newline p = p.take (remove_trailing_newline p).length :=
  List.prefix_iff_eq_take.mp (remove_trailing_newline_isPrefix p)

theorem remove_trailing_newline_drop (p : List Nat) :
    ∀ b ∈ p.drop (remove_trailing_newline p).length, b = 13 ∨ b = 10 := by
  have hsplit10 := List.takeWhile_append_dropWhile (p := (· == 10)) (l := p.reverse)
  have hsplit13 := List.takeWhile_append_dropWhile (p := (· == 13))
    (l := p.reverse.dropWhile (· == 10))
  have hp : p = (remove_trailing_newline p) ++
      (((p.reverse.dropWhile (· == 10)).takeWhile (· == 13)).reverse ++
        (p.reverse.takeWhile (· == 10)).reverse) := by
    conv_lhs => rw [← List.reverse_reverse p, ← hsplit10, ← hsplit13]
    rw [List.reverse_append, List.reverse_append]
    unfold remove_trailing_newline
    rw [List.append_assoc]
  have hdrop : p.drop (remove_trailing_newline p).length =
      ((p.reverse.dropWhile (· == 10)).takeWhile (· == 13)).reverse ++
        (p.reverse.takeWhile (· == 10)).reverse := by
    nth_rewrite 2 [hp]
    rw [List.drop_append_eq_append_drop, List.drop_length, Nat.sub_self, List.drop_zero,
      List.nil_append]
  intro b hb
  rw [hdrop] at hb
  rcases List.mem_append.mp hb with h13 | h10
  · left
    have := List.mem_takeWhile_imp (List.mem_reverse.mp h13)
    simpa using this
  · right
    have := List.mem_takeWhile_imp (List.mem_reverse.mp h10)
    simpa using this

theorem followedBySAux_sound {pdf needle : List Nat} (hne : needle ≠ []) :
    ∀ {l : List Nat} {i : Nat}, followedBySAux pdf needle l i = true →
      ∀ j, needle.isPrefixOf (l.drop j) = true → pdf[i + j + needle.length]? = some 115 := by
  intro l
  induction l with
  | nil =>
    intro i _ j hocc
    exfalso
    cases needle with
    | nil => exact hne rfl
    | cons b bs => simp [List.isPrefixOf] at hocc
  | cons a t ih =>
    intro i h j hocc
    unfold followedBySAux at h
    rw [Bool.and_eq_true] at h
    cases j with
    | zero =>
      rw [List.drop_zero] at hocc
      have h1 := h.1
      rw [if_pos hocc] at h1
      have := (beq_iff_eq).mp h1
      simpa using this
    | succ m =>
      rw [List.drop_succ_cons] at hocc
      have := ih h.2 m hocc
      rw [show i + 1 + m = i + (m + 1) by omega] at this
      exact this

theorem markerCond_strip {pdf needle : List Nat} (hne : needle ≠ [])
    (hall : ∀ j, needle.isPrefixOf (pdf.drop j) = true → pdf[j + needle.length]? = some 115) :
    ∀ j, needle.isPrefixOf ((remove_trailing_newline pdf).drop j) = true →
      (remove_trailing_newline pdf)[j + needle.length]? = some 115 := by
  intro j hocc
  have hpos : 0 < needle.length := List.length_pos.mpr hne
  have hbound : j + needle.length ≤ (remove_trailing_newline pdf).length := by
    have h1 := (List.isPrefixOf_iff_prefix.mp hocc).length_le
    rw [List.length_drop] at h1
    omega
  have hocc' : needle.isPrefixOf (pdf.drop j) = true := by
    rw [← isPrefixOf_drop_take hbound, ← remove_trailing_newline_eq_take pdf]
    exact hocc
  have h115 := hall j hocc'
  rcases Nat.lt_or_ge (j + needle.length) (remove_trailing_newline pdf).length with hlt | hge
  · rw [remove_trailing_newline_eq_take pdf, List.getElem?_take, if_pos hlt]
    exact h115
  · exfalso
    rcases Nat.lt_or_ge (j + needle.length) pdf.length with hl2 | hg2
    · have heq : j + needle.length = (remove_trailing_newline pdf).length := by omega
      have hidx : pdf[j + needle.length]? =
          (pdf.drop (remove_trailing_newline pdf).length)[0]? := by
        rw [List.getElem?_drop, Nat.add_zero, heq]
      rw [h115] at hidx
      have hmem : (115 : Nat) ∈ pdf.drop (remove_trailing_newline pdf).length :=
        mem_of_getElem?_needle hidx.symm
      rcases remove_trailing_newline_drop pdf 115 hmem with h | h <;> omega
    · rw [List.getElem?_eq_none hg2] at h115
      exact Option.noConfusion h115

set_option maxRecDepth 4000 in
theorem findPageScan_none {pdf marker : List Nat}
    (hall : ∀ j, marker.isPrefixOf (pdf.drop j) = true →
      pdf[j + marker.length]? = some 115) :
    ∀ (l : List Nat) (i : Nat), l = pdf.drop i → findPageScan pdf marker l i = none := by
  intro l
  induction l with
  | nil => intro i _; rfl
  | cons a t ih =>
    intro i hl
    unfold findPageScan
    by_cases hp : marker.isPrefixOf (a :: t)
    · rw [if_pos hp]
      have hocc : marker.isPrefixOf (pdf.drop i) = true := by rw [← hl]; exact hp
      have h115 := hall i hocc
      rw [if_pos (by rw [h115]; exact beq_self_eq_true _)]
      apply ih
      rw [← List.tail_drop, ← hl]
      exact rfl
    · rw [if_neg hp]
      apply ih
      rw [← List.tail_drop, ← hl]
      exact rfl

theorem find_first_page_by_pattern_none {pdf : List Nat}
    (h1 : ∀ j, (strBytes "/Type /Page").isPrefixOf (pdf.drop j) = true →
      pdf[j + (strBytes "/Type /Page").length]? = some 115)
    (h2 : ∀ j, (strBytes "/Type/Page").isPrefixOf (pdf.drop j) = true →
      pdf[j + (strBytes "/Type/Page").length]? = some 115) :
    find_first_page_by_pattern pdf = none := by
  unfold find_first_page_by_pattern
  rw [findPageScan_none h1 pdf 0 (by rw [List.drop_zero]),
    findPageScan_none h2 pdf 0 (by rw [List.drop_zero])]

theorem pageMarkersFollowedByS_sound {pdf : List Nat}
    (h : pageMarkersFollowedByS pdf = true) :
    (∀ j, (strBytes "/Type /Page").isPrefixOf (pdf.drop j) = true →
      pdf[j + (strBytes "/Type /Page").length]? = some 115) ∧
    (∀ j, (strBytes "/Type/Page").isPrefixOf (pdf.drop j) = true →
      pdf[j + (strBytes "/Type/Page").length]? = some 115) := by
  unfold pageMarkersFollowedByS at h
  rw [Bool.and_eq_true] at h
  constructor <;> intro j hocc
  · have := followedBySAux_sound (by decide) h.1 j hocc
    rwa [Nat.zero_add] at this
  · have := followedBySAux_sound (by decide) h.2 j hocc
    rwa [Nat.zero_add] at this

/-- Claim C8: for every input PDF in which every occurrence of
`"/Type /Page"` or `"/Type/Page"` is immediately followed by an `'s'` byte
(so the input contains `/Type /Pages` entries but no first page),
`sign_pdf_bytes` fails with `InvalidPdf` — for every CMS signer whatsoever,
so the failure happens before any detached CMS signature is produced. -/
theorem claim_C8 (signer : List Nat → Except PdfSignError (List Nat))
    (signerName nowStr : List Nat) (config : SignatureConfig) (pdfData : List Nat)
    (h : pageMarkersFollowedByS pdfData = true) :
    sign_pdf_bytes signer signerName nowStr config pdfData =
      Outcome.err (PdfSignError.invalidPdf "Não foi possível encontrar a primeira página") := by
  obtain ⟨h1, h2⟩ := pageMarkersFollowedByS_sound h
  have h1' := @markerCond_strip pdfData _ (by decide) h1
  have h2' := @markerCond_strip pdfData _ (by decide) h2
  have hnone : find_first_page_by_pattern (remove_trailing_newline pdfData) = none :=
    find_first_page_by_pattern_none h1' h2'
  have hE : extract_first_page_info (remove_trailing_newline pdfData) =
      Except.error (PdfSignError.invalidPdf "Não foi possível encontrar a primeira página") := by
    unfold extract_first_page_info
    rw [hnone]
  unfold sign_pdf_bytes
  simp only []
  rw [hE]

set_option maxRecDepth 20000 in
/-- Witness for claim C8: on `c8Pdf` every page-marker occurrence is followed
by `'s'`, and signing fails with `InvalidPdf`. -/
theorem claim_C8_witness :
    pageMarkersFollowedByS c8Pdf = true ∧
    sign_pdf_bytes okSigner wName wNow wConfig c8Pdf =
      Outcome.err (PdfSignError.invalidPdf "Não foi possível encontrar a primeira página") :=
  ⟨by decide, claim_C8 okSigner wName wNow wConfig c8Pdf (by decide)⟩

set_option maxRecDepth 20000 in
/-- Witness for claim C3 at `wPdf` (which ends in `\n\n\n` and contains
neither placeholder string). -/
theorem claim_C3_witness :
    containsSubseq byteRangePlaceholder (remove_trailing_newline wPdf) = false ∧
    containsSubseq datePlaceholderBytes (remove_trailing_newline wPdf) = false ∧
    OnOk (sign_pdf_bytes okSigner wName wNow wConfig wPdf) (fun r =>
      r.out.take (remove_trailing_newline wPdf).length = remove_trailing_newline wPdf ∧
      r.out[(remove_trailing_newline wPdf).length]? = some 10 ∧
      r.sigDictPos = (remove_trailing_newline wPdf).length + 1) :=
  ⟨by decide, by decide, claim_C3 okSigner wName wNow wConfig wPdf (by decide) (by decide)⟩

/-! ## Forward evaluation lemmas for the two patch steps -/


theorem patchByteRangeStep_fwd {output : List Nat} {rangePos v0 v1 v2 v3 : Nat}
    (h : (byteRangeRaw v0 v1 v2 v3).length ≤ byteRangePlaceholder.length) :
    patchByteRangeStep output rangePos v0 v1 v2 v3 =
      Outcome.ok (writeAt output rangePos (byteRangeRaw v0 v1 v2 v3 ++
        List.replicate (byteRangePlaceholder.length - (byteRangeRaw v0 v1 v2 v3).length) 32)) := by
  unfold patchByteRangeStep
  simp only []
  rw [if_neg (by omega)]
  rw [if_neg (not_ne_iff.mpr (by simp; omega))]

theorem injectSignatureStep_fwd {buf : List Nat} {pos : Nat} {cms : List Nat}
    (h : (hexEncode cms).length ≤ sigSize) :
    injectSignatureStep buf pos (sigSize + 2) cms =
      Outcome.ok (writeAt buf pos ([60] ++ (hexEncode cms ++
        List.replicate (sigSize - (hexEncode cms).length) 48) ++ [62])) := by
  unfold injectSignatureStep
  simp only []
  rw [if_neg (by omega)]
  rw [if_neg (not_ne_iff.mpr (by simp; omega))]

/-! ## Zone lemmas: locating a search result in a `PRE ++ run ++ POST` buffer -/


theorem isPrefixOf_append_left {needle m rest : List Nat}
    (h : needle.isPrefixOf m = true) : needle.isPrefixOf (m ++ rest) = true := by
  rw [List.isPrefixOf_iff_prefix] at h ⊢
  exact h.trans (List.prefix_append m rest)

theorem findSubseq_in_prefix {needle PRE rest : List Nat} {j : Nat}
    (hne : needle ≠ [])
    (hocc : needle.isPrefixOf (PRE.drop j) = true)
    (hbound : j + needle.length ≤ PRE.length)
    (hno : noOccurIn needle PRE j = true) :
    findSubseq needle (PRE ++ rest) = some j := by
  apply findSubseq_eq_some
  · rw [List.drop_append_of_le_length (by omega)]
    exact isPrefixOf_append_left hocc
  · intro k hk
    have h1 : needle.isPrefixOf (((PRE ++ rest).take PRE.length).drop k) =
        needle.isPrefixOf ((PRE ++ rest).drop k) := isPrefixOf_drop_take (by omega)
    rw [List.take_left] at h1
    rw [← h1]
    exact noOccurIn_sound hne hno k hk

theorem drop_past_run {A B : List Nat} {n b s : Nat} :
    (A ++ (List.replicate n b ++ B)).drop (A.length + (n + s)) = B.drop s := by
  rw [← List.drop_drop, ← List.drop_drop, List.drop_left]
  rw [show (List.replicate n b ++ B).drop n =
      (List.replicate n b ++ B).drop (List.replicate n b (α := Nat)).length from by
        rw [List.length_replicate]]
  rw [List.drop_left]

theorem getElem?_append_replicate_mid {A B : List Nat} {n b k : Nat}
    (h1 : A.length ≤ k) (h2 : k < A.length + n) :
    (A ++ (List.replicate n b ++ B))[k]? = some b := by
  rw [List.getElem?_append_right h1]
  rw [List.getElem?_append_left (by rw [List.length_replicate]; omega)]
  rw [List.getElem?_replicate, if_pos (by omega)]

theorem isPrefixOf_false_at_run {needle A B : List Nat} {n b k h0 : Nat}
    (hhead : needle.head? = some h0) (hne : h0 ≠ b)
    (h1 : A.length ≤ k) (h2 : k < A.length + n) :
    needle.isPrefixOf ((A ++ (List.replicate n b ++ B)).drop k) = false := by
  by_contra hc
  rw [Bool.not_eq_false] at hc
  cases needle with
  | nil => simp at hhead
  | cons x t =>
    have hx := head?_of_isPrefixOf hc
    rw [List.head?_drop, getElem?_append_replicate_mid h1 h2] at hx
    injection hx with e
    injection hhead with e2
    exact hne (e2 ▸ e.symm ▸ rfl)

theorem take_into_run {A B : List Nat} {n b m : Nat} (h : m ≤ n) :
    (A ++ (List.replicate n b ++ B)).take (A.length + m) =
      A ++ List.replicate m b := by
  rw [List.take_append]
  congr 1
  rw [List.take_append_of_le_length (by rw [List.length_replicate]; omega),
    List.take_replicate]
  congr 1
  omega

theorem findSubseq_across_run {needle A B : List Nat} {n b t h0 : Nat}
    (hnen : needle ≠ [])
    (hhead : needle.head? = some h0)
    (hne : h0 ≠ b)
    (hlen : needle.length ≤ n + 1)
    (hnoA : noOccurIn needle (A ++ List.replicate (needle.length - 1) b) A.length = true)
    (hocc : needle.isPrefixOf (B.drop t) = true)
    (hnoB : noOccurIn needle B t = true) :
    findSubseq needle (A ++ (List.replicate n b ++ B)) = some (A.length + n + t) := by
  have hnlen : 1 ≤ needle.length := by
    cases needle with
    | nil => exact absurd rfl hnen
    | cons x xs => simp
  apply findSubseq_eq_some
  · rw [show A.length + n + t = A.length + (n + t) from by omega, drop_past_run]
    exact hocc
  · intro k hk
    rcases lt_or_ge k A.length with hA | hge
    · have h1 : needle.isPrefixOf (((A ++ (List.replicate n b ++ B)).take
          (A.length + (needle.length - 1))).drop k) =
          needle.isPrefixOf ((A ++ (List.replicate n b ++ B)).drop k) :=
        isPrefixOf_drop_take (by omega)
      rw [take_into_run (by omega)] at h1
      rw [← h1]
      exact noOccurIn_sound hnen hnoA k hA
    · rcases lt_or_ge k (A.length + n) with hrun | hpost
      · exact isPrefixOf_false_at_run hhead hne hge hrun
      · have hres : needle.isPrefixOf (B.drop (k - A.length - n)) = false :=
          noOccurIn_sound hnen hnoB _ (by omega)
        rw [show k = A.length + (n + (k - A.length - n)) from by omega, drop_past_run]
        exact hres

theorem writeAt_append_left {buf rest v : List Nat} {pos : Nat}
    (h : pos + v.length ≤ buf.length) :
    writeAt (buf ++ rest) pos v = writeAt buf pos v ++ rest := by
  unfold writeAt
  rw [List.take_append_of_le_length (by omega),
    List.drop_append_of_le_length (by omega), List.append_assoc, List.append_assoc,
    List.append_assoc]

theorem sigDictBytes_decomp (nextObj : Nat) (reason contactInfo signerName location : List Nat) :
    sigDictBytes nextObj reason contactInfo signerName location =
      sdA nextObj ++ ([60] ++ (List.replicate sigSize 48 ++
        ([62] ++ sdB reason contactInfo signerName location))) := by
  simp [sigDictBytes, sigPlaceholder, sdA, sdB, List.append_assoc]

set_option maxHeartbeats 1000000 in
theorem assembleOutput_decomp {signerName : List Nat} {config : SignatureConfig}
    {p nc : List Nat} {N fp catObj : Nat} {SDP AFP SFP NCP XS PX : Nat}
    (h1 : p.length + 1 = SDP)
    (h2 : SDP + ((sdA N).length + (sigSize + 2 +
      (sdB config.reason config.contact_info signerName config.location).length)) = AFP)
    (h3 : AFP + (acroformBytes N).length = SFP)
    (h4 : SFP + (sigFieldBytes N fp).length = NCP)
    (h5 : NCP + nc.length = XS)
    (h6 : computePrevXref p = PX) :
    (assembleOutput signerName config p N fp catObj nc).output =
      (p ++ [10] ++ sdA N ++ [60]) ++
      (List.replicate sigSize 48 ++
        ([62] ++ sdB config.reason config.contact_info signerName config.location ++
         (acroformBytes N ++ (sigFieldBytes N fp ++ (nc ++
         (xrefBytes catObj NCP N SDP AFP SFP ++
          trailerBytes N PX catObj XS)))))) := by
  have hsd : (sigDictBytes N config.reason config.contact_info signerName
      config.location).length = (sdA N).length + (sigSize + 2 +
      (sdB config.reason config.contact_info signerName config.location).length) := by
    rw [sigDictBytes_decomp]
    simp [List.length_append, List.length_replicate]
    omega
  have hsdp : ((p ++ [10] : List Nat)).length = SDP := by
    simp [List.length_append]
    omega
  have hafp : ((p ++ [10]) ++ sigDictBytes N config.reason config.contact_info signerName
      config.location).length = AFP := by
    simp [List.length_append, hsd]
    omega
  have hsfp : (((p ++ [10]) ++ sigDictBytes N config.reason config.contact_info signerName
      config.location) ++ acroformBytes N).length = SFP := by
    simp [List.length_append, hsd]
    omega
  have hncp : ((((p ++ [10]) ++ sigDictBytes N config.reason config.contact_info signerName
      config.location) ++ acroformBytes N) ++ sigFieldBytes N fp).length = NCP := by
    simp [List.length_append, hsd]
    omega
  have hxs : (((((p ++ [10]) ++ sigDictBytes N config.reason config.contact_info signerName
      config.location) ++ acroformBytes N) ++ sigFieldBytes N fp) ++ nc).length = XS := by
    simp [List.length_append, hsd]
    omega
  unfold assembleOutput
  simp only []
  rw [hsdp, hafp, hsfp, hncp, hxs, h6]
  rw [sigDictBytes_decomp]
  simp [List.append_assoc]

theorem assembleOutput_fields {signerName : List Nat} {config : SignatureConfig}
    {p nc : List Nat} {N fp catObj : Nat} {SDP AFP SFP NCP XS PX : Nat}
    (h1 : p.length + 1 = SDP)
    (h2 : SDP + ((sdA N).length + (sigSize + 2 +
      (sdB config.reason config.contact_info signerName config.location).length)) = AFP)
    (h3 : AFP + (acroformBytes N).length = SFP)
    (h4 : SFP + (sigFieldBytes N fp).length = NCP)
    (h5 : NCP + nc.length = XS)
    (h6 : computePrevXref p = PX) :
    (assembleOutput signerName config p N fp catObj nc).sigDictPos = SDP ∧
    (assembleOutput signerName config p N fp catObj nc).acroformPos = AFP ∧
    (assembleOutput signerName config p N fp catObj nc).sigFieldPos = SFP ∧
    (assembleOutput signerName config p N fp catObj nc).newCatalogPos = NCP ∧
    (assembleOutput signerName config p N fp catObj nc).xrefStart = XS ∧
    (assembleOutput signerName config p N fp catObj nc).prevXref = PX ∧
    (assembleOutput signerName config p N fp catObj nc).xref =
      xrefBytes catObj NCP N SDP AFP SFP ∧
    (assembleOutput signerName config p N fp catObj nc).output.length =
      XS + (xrefBytes catObj NCP N SDP AFP SFP).length +
        (trailerBytes N PX catObj XS).length := by
  have hsd : (sigDictBytes N config.reason config.contact_info signerName
      config.location).length = (sdA N).length + (sigSize + 2 +
      (sdB config.reason config.contact_info signerName config.location).length) := by
    rw [sigDictBytes_decomp]
    simp [List.length_append, List.length_replicate]
    omega
  unfold assembleOutput
  simp only []
  refine ⟨?_, ?_, ?_, ?_, ?_, h6, ?_, ?_⟩
  · simp [List.length_append]; omega
  · simp [List.length_append, hsd]; omega
  · simp [List.length_append, hsd]; omega
  · simp [List.length_append, hsd]; omega
  · simp [List.length_append, hsd]; omega
  · have hsdp : ((p ++ [10] : List Nat)).length = SDP := by
      simp [List.length_append]; omega
    have hafp : ((p ++ [10]) ++ sigDictBytes N config.reason config.contact_info signerName
        config.location).length = AFP := by
      simp [List.length_append, hsd]; omega
    have hsfp : (((p ++ [10]) ++ sigDictBytes N config.reason config.contact_info signerName
        config.location) ++ acroformBytes N).length = SFP := by
      simp [List.length_append, hsd]; omega
    have hncp : ((((p ++ [10]) ++ sigDictBytes N config.reason config.contact_info signerName
        config.location) ++ acroformBytes N) ++ sigFieldBytes N fp).length = NCP := by
      simp [List.length_append, hsd]; omega
    rw [hsdp, hafp, hsfp, hncp]
  · have hsdp : ((p ++ [10] : List Nat)).length = SDP := by
      simp [List.length_append]; omega
    have hafp : ((p ++ [10]) ++ sigDictBytes N config.reason config.contact_info signerName
        config.location).length = AFP := by
      simp [List.length_append, hsd]; omega
    have hsfp : (((p ++ [10]) ++ sigDictBytes N config.reason config.contact_info signerName
        config.location) ++ acroformBytes N).length = SFP := by
      simp [List.length_append, hsd]; omega
    have hncp : ((((p ++ [10]) ++ sigDictBytes N config.reason config.contact_info signerName
        config.location) ++ acroformBytes N) ++ sigFieldBytes N fp).length = NCP := by
      simp [List.length_append, hsd]; omega
    have hxs : (((((p ++ [10]) ++ sigDictBytes N config.reason config.contact_info signerName
        config.location) ++ acroformBytes N) ++ sigFieldBytes N fp) ++ nc).length = XS := by
      simp [List.length_append, hsd]; omega
    rw [hsdp, hafp, hsfp, hncp, hxs, h6]
    simp [List.length_append, hsd]
    omega

set_option maxHeartbeats 2000000 in
/-- Forward evaluation of a successful `sign_pdf_bytes` call: given the value
of every intermediate scan and patch, the call returns `Outcome.ok` with the
recorded coordinates. -/
theorem sign_run (signer : List Nat → Except PdfSignError (List Nat))
    (signerName nowStr : List Nat) (config : SignatureConfig)
    (pdfData p nc out1 mid ts cms out : List Nat)
    (N fp catObj pagesRef : Nat)
    (rangePos brEnd c0 ctp d0 a e0 L br3 datePos : Nat)
    (hp : remove_trailing_newline pdfData = p)
    (hN : get_next_object_number p = N)
    (hcat : (extract_catalog_info p).catalog_obj = catObj)
    (hpr : (extract_catalog_info p).pages_ref = pagesRef)
    (hfp : extract_first_page_info p = Except.ok fp)
    (hnc : build_updated_catalog catObj pagesRef (N + 1) p = some nc)
    (hbr : findSubseq byteRangePlaceholder
      (assembleOutput signerName config p N fp catObj nc).output = some rangePos)
    (hbrEnd : rangePos + byteRangePlaceholder.length = brEnd)
    (hc : findSubseq (strBytes "/Contents ")
      ((assembleOutput signerName config p N fp catObj nc).output.drop brEnd) = some c0)
    (hctp : c0 + brEnd = ctp)
    (hd : findSubseq [60]
      ((assembleOutput signerName config p N fp catObj nc).output.drop ctp) = some d0)
    (ha : d0 + ctp = a)
    (he : findSubseq [62]
      ((assembleOutput signerName config p N fp catObj nc).output.drop a) = some e0)
    (hL : e0 + a + 1 - a = L)
    (hbr3 : (assembleOutput signerName config p N fp catObj nc).output.length - (a + L) = br3)
    (hpatch : patchByteRangeStep (assembleOutput signerName config p N fp catObj nc).output
      rangePos 0 a (a + L) br3 = Outcome.ok out1)
    (hdate : findSubseq datePlaceholderBytes out1 = some datePos)
    (hdlen : (strBytes "D:" ++ nowStr ++ strBytes "Z").length = datePlaceholderBytes.length)
    (hmid : writeAt out1 datePos (strBytes "D:" ++ nowStr ++ strBytes "Z") = mid)
    (hts : listSlice mid 0 a ++ listSlice mid (a + L) (a + L + br3) = ts)
    (hsigner : signer ts = Except.ok cms)
    (hinj : injectSignatureStep mid a L cms = Outcome.ok out) :
    sign_pdf_bytes signer signerName nowStr config pdfData = Outcome.ok
      { out := out
        out0 := (assembleOutput signerName config p N fp catObj nc).output
        mid := mid
        toSign := ts
        rangePos := rangePos
        byterangeEnd := brEnd
        contentsTagPos := ctp
        a := a
        L := L
        datePos := datePos
        br0 := 0
        br1 := a
        br2 := a + L
        br3 := br3
        sigDictPos := (assembleOutput signerName config p N fp catObj nc).sigDictPos
        acroformPos := (assembleOutput signerName config p N fp catObj nc).acroformPos
        sigFieldPos := (assembleOutput signerName config p N fp catObj nc).sigFieldPos
        newCatalogPos := (assembleOutput signerName config p N fp catObj nc).newCatalogPos
        xrefStart := (assembleOutput signerName config p N fp catObj nc).xrefStart
        xref := (assembleOutput signerName config p N fp catObj nc).xref
        catalogObj := catObj
        pagesRef := pagesRef
        firstPageObj := fp
        nextObj := N
        prevXref := (assembleOutput signerName config p N fp catObj nc).prevXref } := by
  unfold sign_pdf_bytes
  simp only []
  rw [hp, hN, hcat, hpr, hfp]
  dsimp only
  rw [hnc]
  dsimp only
  rw [hbr]
  dsimp only
  rw [hbrEnd, hc]
  dsimp only
  rw [hctp, hd]
  dsimp only
  rw [ha, he]
  dsimp only
  rw [hL, hbr3, hpatch]
  dsimp only
  rw [hdate]
  dsimp only
  rw [if_neg (not_ne_iff.mpr hdlen)]
  rw [hmid, hts, hsigner]
  dsimp only
  rw [hinj]

set_option maxRecDepth 20000 in
theorem xDecomp : xOut0 = xPRE ++ (List.replicate sigSize 48 ++ xPOST) := by
  unfold xOut0 xPRE xPOST
  exact assembleOutput_decomp (by decide) (by decide) (by decide) (by decide) (by decide)
    (by decide)

set_option maxRecDepth 20000 in
theorem xOut0_len : xOut0.length = 17015 := by
  rw [xDecomp, List.length_append, List.length_append, List.length_replicate]
  decide

set_option maxRecDepth 20000 in
theorem xBr : findSubseq byteRangePlaceholder xOut0 = some 10 := by
  rw [xDecomp]
  exact findSubseq_in_prefix (by decide) (by decide) (by decide) (by decide)

set_option maxRecDepth 20000 in
theorem xC : findSubseq (strBytes "/Contents ") (xOut0.drop 71) = some 346 := by
  rw [xDecomp, List.drop_append_of_le_length (by decide)]
  exact findSubseq_in_prefix (by decide) (by decide) (by decide) (by decide)

set_option maxRecDepth 20000 in
theorem xD : findSubseq [60] (xOut0.drop 417) = some 10 := by
  rw [xDecomp, List.drop_append_of_le_length (by decide)]
  exact findSubseq_in_prefix (by decide) (by decide) (by decide) (by decide)

set_option maxRecDepth 20000 in
theorem xE : findSubseq [62] (xOut0.drop 427) = some 16001 := by
  rw [xDecomp, List.drop_append_of_le_length (by decide),
    show xPRE.drop 427 = [60] from by decide]
  have h := @findSubseq_across_run [62] [60] xPOST sigSize 48 0 62
    (by decide) (by decide) (by decide) (by decide) (by decide) (by decide) (by decide)
  rw [show ([60] : List Nat).length + sigSize + 0 = 16001 from by decide] at h
  exact h

set_option maxRecDepth 20000 in
theorem xPatch : patchByteRangeStep xOut0 10 0 427 (427 + 16002) 586 = Outcome.ok xOut1 := by
  rw [patchByteRangeStep_fwd (by decide),
    show byteRangePlaceholder.length - (byteRangeRaw 0 427 (427 + 16002) 586).length = 33
      from by decide]
  rfl

set_option maxRecDepth 20000 in
theorem xDate : findSubseq datePlaceholderBytes xOut1 = some 16451 := by
  unfold xOut1
  rw [xDecomp, writeAt_append_left (by decide)]
  have h := @findSubseq_across_run datePlaceholderBytes (writeAt xPRE 10 xPad) xPOST sigSize 48
    23 68 (by decide) (by decide) (by decide) (by decide) (by decide) (by decide) (by decide)
  rw [show (writeAt xPRE 10 xPad).length + sigSize + 23 = 16451 from by decide] at h
  exact h

set_option maxRecDepth 20000 in
theorem xInj : injectSignatureStep xMid 427 16002 [48, 49, 50] = Outcome.ok xOut := by
  have h := @injectSignatureStep_fwd xMid 427 [48, 49, 50] (by decide)
  rw [show (sigSize + 2 : Nat) = 16002 from by decide] at h
  exact h

set_option maxRecDepth 20000 in
theorem xOut1_len : xOut1.length = 17015 := by
  unfold xOut1
  rw [length_writeAt (by rw [xOut0_len]; decide), xOut0_len]

set_option maxRecDepth 20000 in
theorem xMid_len : xMid.length = 17015 := by
  unfold xMid
  rw [length_writeAt (by rw [xOut1_len]; decide), xOut1_len]

set_option maxRecDepth 20000 in
theorem xRun : sign_pdf_bytes okSigner wName wNow wConfig xPdf = Outcome.ok
    { out := xOut
      out0 := xOut0
      mid := xMid
      toSign := xTs
      rangePos := 10
      byterangeEnd := 71
      contentsTagPos := 417
      a := 427
      L := 16002
      datePos := 16451
      br0 := 0
      br1 := 427
      br2 := 427 + 16002
      br3 := 586
      sigDictPos := (assembleOutput wName wConfig (remove_trailing_newline xPdf) 4 3 1 xNC).sigDictPos
      acroformPos := (assembleOutput wName wConfig (remove_trailing_newline xPdf) 4 3 1 xNC).acroformPos
      sigFieldPos := (assembleOutput wName wConfig (remove_trailing_newline xPdf) 4 3 1 xNC).sigFieldPos
      newCatalogPos := (assembleOutput wName wConfig (remove_trailing_newline xPdf) 4 3 1 xNC).newCatalogPos
      xrefStart := (assembleOutput wName wConfig (remove_trailing_newline xPdf) 4 3 1 xNC).xrefStart
      xref := (assembleOutput wName wConfig (remove_trailing_newline xPdf) 4 3 1 xNC).xref
      catalogObj := 1
      pagesRef := 2
      firstPageObj := 3
      nextObj := 4
      prevXref := (assembleOutput wName wConfig (remove_trailing_newline xPdf) 4 3 1 xNC).prevXref } :=
  sign_run okSigner wName wNow wConfig xPdf (remove_trailing_newline xPdf) xNC xOut1 xMid xTs
    [48, 49, 50] xOut 4 3 1 2 10 71 346 417 10 427 16001 16002 586 16451
    rfl (by decide) (by decide) (by decide) (by decide) (by decide)
    xBr (by decide) xC (by decide) xD (by decide) xE (by decide)
    (by rw [show (assembleOutput wName wConfig (remove_trailing_newline xPdf) 4 3 1
      xNC).output.length = 17015 from xOut0_len])
    xPatch xDate (by decide) rfl rfl rfl xInj

set_option maxRecDepth 20000 in
theorem yDecomp : yOut0 = yPRE ++ (List.replicate sigSize 48 ++ yPOST) := by
  unfold yOut0 yPRE yPOST
  exact assembleOutput_decomp (by decide) (by decide) (by decide) (by decide) (by decide)
    (by decide)

set_option maxRecDepth 20000 in
theorem yOut0_len : yOut0.length = 16859 := by
  rw [yDecomp, List.length_append, List.length_append, List.length_replicate]
  decide

set_option maxRecDepth 20000 in
theorem yBr : findSubseq byteRangePlaceholder yOut0 = some 199 := by
  rw [yDecomp]
  exact findSubseq_in_prefix (by decide) (by decide) (by decide) (by decide)

set_option maxRecDepth 20000 in
theorem yC : findSubseq (strBytes "/Contents ") (yOut0.drop 260) = some 1 := by
  rw [yDecomp, List.drop_append_of_le_length (by decide)]
  exact findSubseq_in_prefix (by decide) (by decide) (by decide) (by decide)

set_option maxRecDepth 20000 in
theorem yD : findSubseq [60] (yOut0.drop 261) = some 10 := by
  rw [yDecomp, List.drop_append_of_le_length (by decide)]
  exact findSubseq_in_prefix (by decide) (by decide) (by decide) (by decide)

set_option maxRecDepth 20000 in
theorem yE : findSubseq [62] (yOut0.drop 271) = some 16001 := by
  rw [yDecomp, List.drop_append_of_le_length (by decide),
    show yPRE.drop 271 = [60] from by decide]
  have h := @findSubseq_across_run [62] [60] yPOST sigSize 48 0 62
    (by decide) (by decide) (by decide) (by decide) (by decide) (by decide) (by decide)
  rw [show ([60] : List Nat).length + sigSize + 0 = 16001 from by decide] at h
  exact h

set_option maxRecDepth 20000 in
theorem yPatch : patchByteRangeStep yOut0 199 0 271 (271 + 16002) 586 = Outcome.ok yOut1 := by
  rw [patchByteRangeStep_fwd (by decide),
    show byteRangePlaceholder.length - (byteRangeRaw 0 271 (271 + 16002) 586).length = 33
      from by decide]
  rfl

set_option maxRecDepth 20000 in
theorem yDate : findSubseq datePlaceholderBytes yOut1 = some 16295 := by
  unfold yOut1
  rw [yDecomp, writeAt_append_left (by decide)]
  have h := @findSubseq_across_run datePlaceholderBytes (writeAt yPRE 199 yPad) yPOST sigSize 48
    23 68 (by decide) (by decide) (by decide) (by decide) (by decide) (by decide) (by decide)
  rw [show (writeAt yPRE 199 yPad).length + sigSize + 23 = 16295 from by decide] at h
  exact h

set_option maxRecDepth 20000 in
theorem yInj : injectSignatureStep yMid 271 16002 [48, 49, 50] = Outcome.ok yOut := by
  have h := @injectSignatureStep_fwd yMid 271 [48, 49, 50] (by decide)
  rw [show (sigSize + 2 : Nat) = 16002 from by decide] at h
  exact h

set_option maxRecDepth 20000 in
theorem yRun : sign_pdf_bytes okSigner wName wNow wConfig yPdf = Outcome.ok
    { out := yOut
      out0 := yOut0
      mid := yMid
      toSign := yTs
      rangePos := 199
      byterangeEnd := 260
      contentsTagPos := 261
      a := 271
      L := 16002
      datePos := 16295
      br0 := 0
      br1 := 271
      br2 := 271 + 16002
      br3 := 586
      sigDictPos := (assembleOutput wName wConfig (remove_trailing_newline yPdf) 4 3 1 xNC).sigDictPos
      acroformPos := (assembleOutput wName wConfig (remove_trailing_newline yPdf) 4 3 1 xNC).acroformPos
      sigFieldPos := (assembleOutput wName wConfig (remove_trailing_newline yPdf) 4 3 1 xNC).sigFieldPos
      newCatalogPos := (assembleOutput wName wConfig (remove_trailing_newline yPdf) 4 3 1 xNC).newCatalogPos
      xrefStart := (assembleOutput wName wConfig (remove_trailing_newline yPdf) 4 3 1 xNC).xrefStart
      xref := (assembleOutput wName wConfig (remove_trailing_newline yPdf) 4 3 1 xNC).xref
      catalogObj := 1
      pagesRef := 2
      firstPageObj := 3
      nextObj := 4
      prevXref := (assembleOutput wName wConfig (remove_trailing_newline yPdf) 4 3 1 xNC).prevXref } :=
  sign_run okSigner wName wNow wConfig yPdf (remove_trailing_newline yPdf) xNC yOut1 yMid yTs
    [48, 49, 50] yOut 4 3 1 2 199 260 1 261 10 271 16001 16002 586 16295
    rfl (by decide) (by decide) (by decide) (by decide) (by decide)
    yBr (by decide) yC (by decide) yD (by decide) yE (by decide)
    (by rw [show (assembleOutput wName wConfig (remove_trailing_newline yPdf) 4 3 1
      xNC).output.length = 16859 from yOut0_len])
    yPatch yDate (by decide) rfl rfl rfl yInj

set_option maxRecDepth 20000 in
theorem zDecomp : zOut0 = zPRE ++ (List.replicate sigSize 48 ++ zPOST) := by
  unfold zOut0 zPRE zPOST
  exact assembleOutput_decomp (by decide) (by decide) (by decide) (by decide) (by decide)
    (by decide)

set_option maxRecDepth 20000 in
theorem zOut0_len : zOut0.length = 16955 := by
  rw [zDecomp, List.length_append, List.length_append, List.length_replicate]
  decide

set_option maxRecDepth 20000 in
theorem zBr : findSubseq byteRangePlaceholder zOut0 = some 292 := by
  rw [zDecomp]
  exact findSubseq_in_prefix (by decide) (by decide) (by decide) (by decide)

set_option maxRecDepth 20000 in
theorem zC : findSubseq (strBytes "/Contents ") (zOut0.drop 353) = some 1 := by
  rw [zDecomp, List.drop_append_of_le_length (by decide)]
  exact findSubseq_in_prefix (by decide) (by decide) (by decide) (by decide)

set_option maxRecDepth 20000 in
theorem zD : findSubseq [60] (zOut0.drop 354) = some 10 := by
  rw [zDecomp, List.drop_append_of_le_length (by decide)]
  exact findSubseq_in_prefix (by decide) (by decide) (by decide) (by decide)

set_option maxRecDepth 20000 in
theorem zE : findSubseq [62] (zOut0.drop 364) = some 16001 := by
  rw [zDecomp, List.drop_append_of_le_length (by decide),
    show zPRE.drop 364 = [60] from by decide]
  have h := @findSubseq_across_run [62] [60] zPOST sigSize 48 0 62
    (by decide) (by decide) (by decide) (by decide) (by decide) (by decide) (by decide)
  rw [show ([60] : List Nat).length + sigSize + 0 = 16001 from by decide] at h
  exact h

set_option maxRecDepth 20000 in
theorem zPatch : patchByteRangeStep zOut0 292 0 364 (364 + 16002) 589 = Outcome.ok zOut1 := by
  rw [patchByteRangeStep_fwd (by decide),
    show byteRangePlaceholder.length - (byteRangeRaw 0 364 (364 + 16002) 589).length = 33
      from by decide]
  rfl

set_option maxRecDepth 20000 in
theorem zDate : findSubseq datePlaceholderBytes zOut1 = some 16388 := by
  unfold zOut1
  rw [zDecomp, writeAt_append_left (by decide)]
  have h := @findSubseq_across_run datePlaceholderBytes (writeAt zPRE 292 zPad) zPOST sigSize 48
    23 68 (by decide) (by decide) (by decide) (by decide) (by decide) (by decide) (by decide)
  rw [show (writeAt zPRE 292 zPad).length + sigSize + 23 = 16388 from by decide] at h
  exact h

set_option maxRecDepth 20000 in
theorem zInj : injectSignatureStep zMid 364 16002 [48, 49, 50] = Outcome.ok zOut := by
  have h := @injectSignatureStep_fwd zMid 364 [48, 49, 50] (by decide)
  rw [show (sigSize + 2 : Nat) = 16002 from by decide] at h
  exact h

set_option maxRecDepth 20000 in
theorem zRun : sign_pdf_bytes okSigner wName wNow wConfig zPdf = Outcome.ok
    { out := zOut
      out0 := zOut0
      mid := zMid
      toSign := zTs
      rangePos := 292
      byterangeEnd := 353
      contentsTagPos := 354
      a := 364
      L := 16002
      datePos := 16388
      br0 := 0
      br1 := 364
      br2 := 364 + 16002
      br3 := 589
      sigDictPos := (assembleOutput wName wConfig (remove_trailing_newline zPdf) 4 3 99 zNC).sigDictPos
      acroformPos := (assembleOutput wName wConfig (remove_trailing_newline zPdf) 4 3 99 zNC).acroformPos
      sigFieldPos := (assembleOutput wName wConfig (remove_trailing_newline zPdf) 4 3 99 zNC).sigFieldPos
      newCatalogPos := (assembleOutput wName wConfig (remove_trailing_newline zPdf) 4 3 99 zNC).newCatalogPos
      xrefStart := (assembleOutput wName wConfig (remove_trailing_newline zPdf) 4 3 99 zNC).xrefStart
      xref := (assembleOutput wName wConfig (remove_trailing_newline zPdf) 4 3 99 zNC).xref
      catalogObj := 99
      pagesRef := 2
      firstPageObj := 3
      nextObj := 4
      prevXref := (assembleOutput wName wConfig (remove_trailing_newline zPdf) 4 3 99 zNC).prevXref } :=
  sign_run okSigner wName wNow wConfig zPdf (remove_trailing_newline zPdf) zNC zOut1 zMid zTs
    [48, 49, 50] zOut 4 3 99 2 292 353 1 354 10 364 16001 16002 589 16388
    rfl (by decide) (by decide) (by decide) (by decide) (by decide)
    zBr (by decide) zC (by decide) zD (by decide) zE (by decide)
    (by rw [show (assembleOutput wName wConfig (remove_trailing_newline zPdf) 4 3 99
      zNC).output.length = 16955 from zOut0_len])
    zPatch zDate (by decide) rfl rfl rfl zInj

set_option maxRecDepth 20000 in
theorem xOut1_length : xOut1.length = 17015 := by
  unfold xOut1
  rw [length_writeAt (by rw [xOut0_len]; decide), xOut0_len]

set_option maxRecDepth 20000 in
theorem xMid_length : xMid.length = 17015 := by
  unfold xMid
  rw [length_writeAt (by rw [xOut1_length]; decide), xOut1_length]

set_option maxRecDepth 20000 in
theorem xPrefixBroken :
    (xOut.take (remove_trailing_newline xPdf).length ==
      remove_trailing_newline xPdf) = false := by
  rw [show (remove_trailing_newline xPdf).length = 277 from by decide]
  unfold xOut
  rw [take_writeAt_of_le (by decide) (by rw [xMid_length]; decide)]
  unfold xMid
  rw [take_writeAt_of_le (by decide) (by rw [xOut1_length]; decide)]
  unfold xOut1
  rw [xDecomp, writeAt_append_left (by decide),
    List.take_append_of_le_length (by decide)]
  decide

/-- Claim C3 counterexample: `xPdf` is a well-formed single-page PDF whose
second line is the comment `%/ByteRange [0000000 0000000 0000000 0000000]                 x`.
Signing succeeds on it, but the `ByteRange` patch lands inside that comment
(the first occurrence of the placeholder string in the whole buffer), so the
returned buffer does *not* begin with the stripped input byte-for-byte. -/
theorem claim_C3_counterexample :
    OkAnd (sign_pdf_bytes okSigner wName wNow wConfig xPdf) (fun r =>
      (r.out.take (remove_trailing_newline xPdf).length ==
        remove_trailing_newline xPdf) = false) :=
  ⟨_, xRun, xPrefixBroken⟩

/-- Claim C4 (amended: the code does not fail): when both catalog-resolution
strategies fail — the trailer scan and the `/Type /Catalog` pattern search
both return `none` — `extract_catalog_info` silently defaults the catalog
object number to `1` (the source's `unwrap_or(1)`), and the signing pipeline
proceeds with that default instead of failing with `InvalidPdf`. -/
theorem claim_C4 (pdf : List Nat)
    (h1 : find_catalog_from_trailer pdf = none)
    (h2 : find_catalog_by_pattern pdf = none) :
    (extract_catalog_info pdf).catalog_obj = 1 := by
  unfold extract_catalog_info
  rw [h1, h2]
  rfl

set_option maxRecDepth 20000 in
theorem claim_C4_witness :
    find_catalog_from_trailer (remove_trailing_newline yPdf) = none ∧
    find_catalog_by_pattern (remove_trailing_newline yPdf) = none ∧
    (extract_catalog_info (remove_trailing_newline yPdf)).catalog_obj = 1 :=
  ⟨by decide, by decide,
    claim_C4 (remove_trailing_newline yPdf) (by decide) (by decide)⟩

set_option maxRecDepth 20000 in
/-- Claim C4 counterexample: on `yPdf` both catalog-resolution strategies
fail, yet the signing operation does not fail with `InvalidPdf` — it
succeeds, using the default catalog object number `1`. -/
theorem claim_C4_counterexample :
    find_catalog_from_trailer (remove_trailing_newline yPdf) = none ∧
    find_catalog_by_pattern (remove_trailing_newline yPdf) = none ∧
    OkAnd (sign_pdf_bytes okSigner wName wNow wConfig yPdf) (fun r =>
      r.catalogObj = 1) :=
  ⟨by decide, by decide, _, yRun, rfl⟩

set_option maxRecDepth 20000 in
theorem zXref :
    (assembleOutput wName wConfig (remove_trailing_newline zPdf) 4 3 99 zNC).xref =
      xrefBytes 99 16706 4 215 16526 16591 :=
  (@assembleOutput_fields wName wConfig (remove_trailing_newline zPdf) zNC 4 3 99
    215 16526 16591 16706 16772 9 (by decide) (by decide) (by decide) (by decide) (by decide)
    (by decide)).2.2.2.2.2.2.1

set_option maxRecDepth 20000 in
/-- Claim C7 counterexample: on `zPdf` the trailer names object 99 as the
catalog while the next free object number is `N = 4`, so `catalog_obj > N`;
the signing call succeeds and its incremental xref still emits the catalog
subsection (`99 1`, at offset 29) *before* the `N` subsection (`4 3`, at
offset 54) — the subsections are not sorted by first object number as the
claim requires for the `catalog_obj > N` case. -/
theorem claim_C7_counterexample :
    OkAnd (sign_pdf_bytes okSigner wName wNow wConfig zPdf) (fun r =>
      r.nextObj = 4 ∧ r.catalogObj = 99 ∧
      r.xref = xrefBytes 99 16706 4 215 16526 16591) ∧
    findSubseq (strBytes "\n99 1\n") (xrefBytes 99 16706 4 215 16526 16591) = some 28 ∧
    findSubseq (strBytes "\n4 3\n") (xrefBytes 99 16706 4 215 16526 16591) = some 53 :=
  ⟨⟨_, zRun, rfl, rfl, zXref⟩, by decide, by decide⟩

/-! ## Claims C5 and C6: the two patch-step failure modes -/


theorem hexEncode_length (l : List Nat) : (hexEncode l).length = 2 * l.length := by
  induction l with
  | nil => rfl
  | cons b t ih =>
    simp only [hexEncode, List.map_cons, List.flatten_cons, List.length_append,
      List.length_cons, List.length_nil] at ih ⊢
    omega

/-- Claim C5 (corrected): when the hex encoding of the DER CMS blob exceeds
`SIG_SLOT = 16000` digits — equivalently, when the DER blob is longer than
8000 bytes — the injection step fails, but with
`PdfSignError.invalidPdf ("Assinatura muito grande: …")`: the error enum
`PdfSignError` has no `SignatureTooLarge` variant, so the failure's error
kind is `InvalidPdf`. -/
theorem claim_C5 (buf : List Nat) (pos plen : Nat) (cms : List Nat)
    (h : 8000 < cms.length) :
    injectSignatureStep buf pos plen cms =
      Outcome.err (PdfSignError.invalidPdf ("Assinatura muito grande: " ++
        toString (2 * cms.length) ++ " bytes, mas placeholder tem apenas " ++
        toString sigSize ++ " bytes")) ∧
    outcomeErrKind (injectSignatureStep buf pos plen cms) = some ErrKind.invalidPdf := by
  have heq : injectSignatureStep buf pos plen cms =
      Outcome.err (PdfSignError.invalidPdf ("Assinatura muito grande: " ++
        toString (2 * cms.length) ++ " bytes, mas placeholder tem apenas " ++
        toString sigSize ++ " bytes")) := by
    unfold injectSignatureStep
    simp only []
    rw [if_pos (by rw [hexEncode_length]; show (16000 : Nat) < 2 * cms.length; omega)]
    rw [hexEncode_length]
  exact ⟨heq, by rw [heq]; rfl⟩

theorem claim_C5_witness :
    8000 < (List.replicate 8001 (0 : Nat)).length ∧
    (injectSignatureStep [] 0 16002 (List.replicate 8001 0) =
      Outcome.err (PdfSignError.invalidPdf ("Assinatura muito grande: " ++
        toString (2 * (List.replicate 8001 (0 : Nat)).length) ++
        " bytes, mas placeholder tem apenas " ++ toString sigSize ++ " bytes")) ∧
     outcomeErrKind (injectSignatureStep [] 0 16002 (List.replicate 8001 0)) =
       some ErrKind.invalidPdf) :=
  ⟨by rw [List.length_replicate]; decide,
    claim_C5 [] 0 16002 (List.replicate 8001 0) (by rw [List.length_replicate]; decide)⟩

/-- Claim C5 counterexample: an 8001-byte DER blob over-fills the
16000-digit `Contents` slot, and the resulting failure's error kind is
`InvalidPdf` — not a `SignatureTooLarge` kind, which `PdfSignError` does not
even have. -/
theorem claim_C5_counterexample :
    outcomeErrKind (injectSignatureStep [] 0 16002 (List.replicate 8001 0)) =
      some ErrKind.invalidPdf := by
  unfold injectSignatureStep
  simp only []
  rw [if_pos (by rw [hexEncode_length, List.length_replicate]; decide)]
  rfl

/-- Claim C6 (code bug): when the formatted `/ByteRange [w x y z]` string is
longer than the placeholder (61 bytes, not 63 as the claim says), the
source's `byterange_placeholder_len - byte_range_str_raw.len()` underflows
`usize` *before* its explicit `InvalidPdf` length guard can fire, so the
operation panics (debug build) or aborts on a capacity overflow in
`" ".repeat(..)` (release build) instead of returning `InvalidPdf`. -/
theorem claim_C6 (output : List Nat) (rangePos v0 v1 v2 v3 : Nat)
    (h : byteRangePlaceholder.length < (byteRangeRaw v0 v1 v2 v3).length) :
    patchByteRangeStep output rangePos v0 v1 v2 v3 = Outcome.panicked := by
  unfold patchByteRangeStep
  simp only []
  rw [if_pos h]

theorem claim_C6_witness :
    byteRangePlaceholder.length <
      (byteRangeRaw 0 10000000000000000000 20000000000000000000 30000000000000000000).length ∧
    patchByteRangeStep [] 0 0 10000000000000000000 20000000000000000000 30000000000000000000 =
      Outcome.panicked :=
  ⟨by decide, claim_C6 [] 0 0 10000000000000000000 20000000000000000000 30000000000000000000
    (by decide)⟩

theorem gnon_fold (ls : List (List Nat)) (acc : Nat) :
    ls.foldl (fun maxObj line =>
      match (tokensOf line).head? with
      | none => maxObj
      | some tok =>
        match parseNatLe u32Max tok with
        | none => maxObj
        | some num =>
          if containsSubseq (strBytes "0 obj") line then Nat.max maxObj num
          else maxObj) acc =
      (ls.filterMap lineObjCandidate).foldl Nat.max acc := by
  induction ls generalizing acc with
  | nil => rfl
  | cons l t ih =>
    rw [List.foldl_cons]
    have hstep : (match (tokensOf l).head? with
        | none => acc
        | some tok =>
          match parseNatLe u32Max tok with
          | none => acc
          | some num =>
            if containsSubseq (strBytes "0 obj") l then Nat.max acc num
            else acc) =
        match lineObjCandidate l with
        | none => acc
        | some num => Nat.max acc num := by
      unfold lineObjCandidate
      cases (tokensOf l).head? with
      | none => rfl
      | some tok =>
        dsimp only
        cases parseNatLe u32Max tok with
        | none => rfl
        | some num =>
          dsimp only
          by_cases hc : containsSubseq (strBytes "0 obj") l = true
          · simp [hc]
          · simp only [Bool.not_eq_true] at hc
            simp [hc]
    rw [hstep]
    cases hl : lineObjCandidate l with
    | none =>
      rw [List.filterMap_cons_none hl]
      exact ih acc
    | some v =>
      rw [List.filterMap_cons_some hl, List.foldl_cons]
      exact ih (Nat.max acc v)

/-- Claim C9 (amended): `get_next_object_number` returns one greater than the
maximum — over the *lines* of the input whose text contains `"0 obj"`
anywhere and whose *first whitespace token* parses as a decimal number at
most `u32::MAX` — of that first token's value (and `1` when no line
qualifies).  It does not parse `n 0 obj` object headers. -/
theorem claim_C9 (input : List Nat) :
    get_next_object_number input =
      (((linesOf input).filterMap lineObjCandidate).foldl Nat.max 0) + 1 := by
  unfold get_next_object_number
  rw [gnon_fold]

set_option maxRecDepth 20000 in
/-- Claim C9 counterexample: the line `"5 x 0 obj"` contains no `n 0 obj`
object header (the token before `" 0 obj"` is `x`), so the claimed behaviour
yields `1`; but the source's line heuristic sees that the line contains
`"0 obj"` and parses the first token `5`, returning `6`. -/
theorem claim_C9_counterexample :
    get_next_object_number (strBytes "5 x 0 obj") = 6 ∧
    specNextObjectNumber (strBytes "5 x 0 obj") = 1 ∧
    (get_next_object_number (strBytes "5 x 0 obj") ==
      specNextObjectNumber (strBytes "5 x 0 obj")) = false :=
  ⟨by decide, by decide, by decide⟩

/-! ## Claim C10: `remove_trailing_newline` -/


theorem head?_dropWhile_ne13 (l : List Nat) (a : Nat)
    (h : (l.dropWhile (· == 13)).head? = some a) : a ≠ 13 := by
  induction l with
  | nil => simp [List.dropWhile] at h
  | cons x t ih =>
    rw [List.dropWhile_cons] at h
    by_cases hx : (x == 13) = true
    · rw [if_pos hx] at h
      exact ih h
    · rw [if_neg (by simp [hx])] at h
      injection h with h
      subst h
      simpa using hx

/-- Claim C10: `remove_trailing_newline` returns a prefix of its input,
obtained by first removing all trailing `\n` (0x0A) bytes and then all
trailing `\r` (0x0D) bytes; every removed byte is `\r` or `\n` and the
result never ends in `\r`, but a mixed trailing CR/LF run is not fully
stripped: on `[65, 10, 13, 10]` (`"A\n\r\n"`) the result `[65, 10]` still
ends with `\n`. -/
theorem claim_C10 (p : List Nat) :
    remove_trailing_newline p <+: p ∧
    (p.drop (remove_trailing_newline p).length).all (fun b => b == 13 || b == 10) = true ∧
    ((remove_trailing_newline p).getLast? == some 13) = false ∧
    remove_trailing_newline [65, 10, 13, 10] = [65, 10] := by
  refine ⟨remove_trailing_newline_isPrefix p, ?_, ?_, by decide⟩
  · rw [List.all_eq_true]
    intro b hb
    rcases remove_trailing_newline_drop p b hb with h | h <;> simp [h]
  · rw [beq_eq_false_iff_ne]
    intro hla
    unfold remove_trailing_newline at hla
    rw [List.getLast?_reverse] at hla
    exact head?_dropWhile_ne13 _ 13 hla rfl
